import Mathlib

/-!
Shallow embedding of the NovaMind build-tooling scripts
(`create_clean_project.py`, `fix_project_paths.py`, `fix_project_paths_v2.py`,
`fix_project_paths_v4.py`).

The generator `create_xcode_project` walks a source tree, draws identifiers
from `uuid.uuid4()`, and renders a `project.pbxproj` text via one f-string
template.  We model the stream of raw `uuid4` draws as a function
`s : Nat → String` (the n-th call to `generate_uuid` reads `s n`), and the
discovered relative Swift paths as a `List String`.  Everything else is a
direct transcription of the Python source.
-/

namespace NovaMind


/-- Model of `generate_uuid` (create_clean_project.py lines 6-7):
`str(uuid.uuid4()).replace('-', '').upper()[:24]`, applied to one raw draw
`raw` of the underlying random source.  `.replace('-', '')` deletes every
dash, `.upper()` uppercases (the draws are ASCII hex-and-dash text), `[:24]`
keeps the first 24 characters. -/
def generate_uuid (raw : String) : String :=
  String.mk (((raw.data.filter (fun c => c != '-')).map Char.toUpper).take 24)

/-- The token returned by the `n`-th call to `generate_uuid` in a run whose
raw `uuid4` draws are `s 0, s 1, s 2, …`. -/
def uuidAt (s : Nat → String) (n : Nat) : String := generate_uuid (s n)

/-- The `k`-th `generate_uuid` call made after the per-file loop, in a run
with `N` discovered files (the loop consumes draws `0 … 2*N-1`). -/
def uuidB (s : Nat → String) (N k : Nat) : String := uuidAt s (2 * N + k)

/-- Model of `os.path.basename` for the POSIX paths produced by `os.path.relpath`:
the suffix after the last `/`. -/
def basename (p : String) : String :=
  String.mk (p.data.foldl (fun acc c => if c = '/' then [] else acc ++ [c]) [])

/-- A `PBXFileReference` record line, create_clean_project.py line 35. -/
def fileRefLine (u name : String) : String :=
  "\t\t" ++ u ++ " /* " ++ name ++
    " */ = \x7bisa = PBXFileReference; lastKnownFileType = sourcecode.swift; path = " ++
    name ++ "; sourceTree = \"<group>\"; \x7d;"

/-- A `PBXBuildFile` record line, create_clean_project.py line 36. -/
def buildFileLine (bu name ref : String) : String :=
  "\t\t" ++ bu ++ " /* " ++ name ++ " in Sources */ = \x7bisa = PBXBuildFile; fileRef = " ++
    ref ++ " /* " ++ name ++ " */; \x7d;"

/-- A sources-phase entry line, create_clean_project.py line 37. -/
def sourcesLine (bu name : String) : String :=
  "\t\t\t\t" ++ bu ++ " /* " ++ name ++ " in Sources */,"

/-- Python `chr(10).join(...)`. -/
def joinNl : List String → String
  | [] => ""
  | [x] => x
  | x :: y :: t => x ++ "\n" ++ joinNl (y :: t)

/-- The `file_refs` list built by the loop at lines 30-35: entry `i` uses the
draw `2*i` (the loop calls `generate_uuid` for `ref_uuid` first, then for
`build_uuid`).  The parameter `k` is the running value of the loop index. -/
def file_refsAux (s : Nat → String) (k : Nat) : List String → List String
  | [] => []
  | p :: ps => fileRefLine (uuidAt s (2 * k)) (basename p) :: file_refsAux s (k + 1) ps

def file_refs (files : List String) (s : Nat → String) : List String :=
  file_refsAux s 0 files

/-- The `build_files` list built at lines 30-36: entry `i` is named by draw
`2*i+1` and references draw `2*i`. -/
def build_filesAux (s : Nat → String) (k : Nat) : List String → List String
  | [] => []
  | p :: ps =>
      buildFileLine (uuidAt s (2 * k + 1)) (basename p) (uuidAt s (2 * k)) ::
        build_filesAux s (k + 1) ps

def build_files (files : List String) (s : Nat → String) : List String :=
  build_filesAux s 0 files

/-- The `sources_list` list built at lines 30-37: entry `i` carries draw `2*i+1`. -/
def sources_listAux (s : Nat → String) (k : Nat) : List String → List String
  | [] => []
  | p :: ps => sourcesLine (uuidAt s (2 * k + 1)) (basename p) :: sources_listAux s (k + 1) ps

def sources_list (files : List String) (s : Nat → String) : List String :=
  sources_listAux s 0 files

/-- The single static entry of the Resources build phase (template line 149):
the `assets_build_uuid` draw is number `2*N+5`. -/
def resEntryLine (s : Nat → String) (N : Nat) : String :=
  "\t\t\t\t" ++ uuidB s N 5 ++ " /* Assets.xcassets in Resources */,"

/-- The closing `rootObject` reference of the template (line 356): a fresh
draw, number `2*N+25`. -/
def rootRefText (s : Nat → String) (N : Nat) : String :=
  "\trootObject = " ++ uuidB s N 25 ++ " /* Project object */;\n\x7d\n"

/-- Combined syntactic scan state for the serialized text: running brace
depth `bd` with minimum prefix depth `bm`, parenthesis depth `pd` with
minimum `pm`, and double-quote parity `q`. -/
structure Scan3 where
  bd : Int
  bm : Int
  pd : Int
  pm : Int
  q : Bool
deriving DecidableEq

def scanUnit : Scan3 := ⟨0, 0, 0, 0, false⟩

def charScan (c : Char) : Scan3 :=
  if c = '\x7b' then ⟨1, 0, 0, 0, false⟩
  else if c = '\x7d' then ⟨-1, -1, 0, 0, false⟩
  else if c = '(' then ⟨0, 0, 1, 0, false⟩
  else if c = ')' then ⟨0, 0, -1, -1, false⟩
  else if c = '"' then ⟨0, 0, 0, 0, true⟩
  else scanUnit

def comb (a b : Scan3) : Scan3 :=
  ⟨a.bd + b.bd, min a.bm (a.bd + b.bm), a.pd + b.pd, min a.pm (a.pd + b.pm), a.q != b.q⟩

def scan3 : List Char → Scan3
  | [] => scanUnit
  | c :: t => comb (charScan c) (scan3 t)

def scanS (str : String) : Scan3 := scan3 str.data

/-- Braces and parentheses of `str` are balanced (never dip below the
top level, and close exactly), and double quotes pair up. -/
def wellFormedText (str : String) : Prop := scanS str = scanUnit

-- Literal pieces of the `project_content` f-string template (create_clean_project.py, lines 48-358).
-- Braces are written with \x7b / \x7d escapes.

def tp0 : String :=
  "// !$*UTF8*$!\n\x7b\n\tarchiveVersion = 1;\n\tclasses = \x7b\n\t\x7d;\n\tobjectVersion = 77;\n\tobjects = \x7b\n\n"

def tp1 : String :=
  "/* Begin PBXBuildFile section */\n"

def tp2 : String :=
  "\n\t\t"

def tp3 : String :=
  " /* Assets.xcassets in Resources */ = \x7bisa = PBXBuildFile; fileRef = "

def tp4 : String :=
  " /* Assets.xcassets */; \x7d;\n/* End PBXBuildFile section */\n\n/* Begin PBXFileReference section */\n"

def tp5 : String :=
  " /* Assets.xcassets */ = \x7bisa = PBXFileReference; lastKnownFileType = folder.assetcatalog; path = Assets.xcassets; sou"

def tp6 : String :=
  "rceTree = \"<group>\"; \x7d;\n\t\t"

def tp7 : String :=
  " /* NovaMind.app */ = \x7bisa = PBXFileReference; explicitFileType = wrapper.application; includeInIndex = 0; path = Nova"

def tp8 : String :=
  "Mind.app; sourceTree = BUILT_PRODUCTS_DIR; \x7d;\n/* End PBXFileReference section */\n\n/* Begin PBXGroup section */\n\t\t"

def tp9 : String :=
  " = \x7b\n\t\t\tisa = PBXGroup;\n\t\t\tchildren = (\n\t\t\t\t"

def tp10 : String :=
  " /* NovaMind */,\n\t\t\t\t"

def tp11 : String :=
  " /* Products */,\n\t\t\t);\n\t\t\tsourceTree = \"<group>\";\n\t\t\x7d;\n\t\t"

def tp12 : String :=
  " /* NovaMind */ = \x7b\n\t\t\tisa = PBXGroup;\n\t\t\tchildren = (\n\t\t\t\t"

def tp13 : String :=
  " /* Assets.xcassets */,\n\t\t\t);\n\t\t\tpath = NovaMind;\n\t\t\tsourceTree = \"<group>\";\n\t\t\x7d;\n\t\t"

def tp14 : String :=
  " /* Products */ = \x7b\n\t\t\tisa = PBXGroup;\n\t\t\tchildren = (\n\t\t\t\t"

def tp15 : String :=
  " /* NovaMind.app */,\n\t\t\t);\n\t\t\tname = Products;\n\t\t\tsourceTree = \"<group>\";\n\t\t\x7d;\n/* End PBXGroup section */\n\n"

def tp16 : String :=
  "/* Begin PBXNativeTarget section */\n\t\t"

def tp17 : String :=
  " /* NovaMind */ = \x7b\n\t\t\tisa = PBXNativeTarget;\n\t\t\tbuildConfigurationList = "

def tp18 : String :=
  " /* Build configuration list for PBXNativeTarget \"NovaMind\" */;\n\t\t\tbuildPhases = (\n\t\t\t\t"

def tp19 : String :=
  " /* Sources */,\n\t\t\t\t"

def tp20 : String :=
  " /* Resources */,\n\t\t\t);\n\t\t\tbuildRules = (\n\t\t\t);\n\t\t\tdependencies = (\n\t\t\t);\n\t\t\tname = NovaMind;\n"

def tp21 : String :=
  "\t\t\tproductName = NovaMind;\n\t\t\tproductReference = "

def tp22 : String :=
  " /* NovaMind.app */;\n\t\t\tproductType = \"com.apple.product-type.application\";\n\t\t\x7d;\n/* End PBXNativeTarget section */\n\n"

def tp23 : String :=
  "/* Begin PBXProject section */\n\t\t"

def tp24 : String :=
  " /* Project object */ = \x7b\n\t\t\tisa = PBXProject;\n\t\t\tattributes = \x7b\n\t\t\t\tBuildIndependentTargetsInParallel = 1;\n"

def tp25 : String :=
  "\t\t\t\tLastSwiftUpdateCheck = 1600;\n\t\t\t\tLastUpgradeCheck = 1600;\n\t\t\t\tTargetAttributes = \x7b\n\t\t\t\t\t"

def tp26 : String :=
  " = \x7b\n\t\t\t\t\t\tCreatedOnToolsVersion = 16.0;\n\t\t\t\t\t\x7d;\n\t\t\t\t\x7d;\n\t\t\t\x7d;\n\t\t\tbuildConfigurationList = "

def tp27 : String :=
  " /* Build configuration list for PBXProject \"NovaMind\" */;\n\t\t\tcompatibilityVersion = \"Xcode 15.0\";\n"

def tp28 : String :=
  "\t\t\tdevelopmentRegion = en;\n\t\t\thasScannedForEncodings = 0;\n\t\t\tknownRegions = (\n\t\t\t\ten,\n\t\t\t\tBase,\n\t\t\t);\n\t\t\tmainGroup = "

def tp29 : String :=
  ";\n\t\t\tproductRefGroup = "

def tp30 : String :=
  " /* Products */;\n\t\t\tprojectDirPath = \"\";\n\t\t\tprojectRoot = \"\";\n\t\t\ttargets = (\n\t\t\t\t"

def tp31 : String :=
  " /* NovaMind */,\n\t\t\t);\n\t\t\x7d;\n/* End PBXProject section */\n\n/* Begin PBXResourcesBuildPhase section */\n\t\t"

def tp32 : String :=
  " /* Resources */ = \x7b\n\t\t\tisa = PBXResourcesBuildPhase;\n\t\t\tbuildActionMask = 2147483647;\n\t\t\tfiles = (\n"

def tp33 : String :=
  "\n\t\t\t);\n\t\t\trunOnlyForDeploymentPostprocessing = 0;\n\t\t\x7d;\n/* End PBXResourcesBuildPhase section */\n\n"

def tp34 : String :=
  "/* Begin PBXSourcesBuildPhase section */\n\t\t"

def tp35 : String :=
  " /* Sources */ = \x7b\n\t\t\tisa = PBXSourcesBuildPhase;\n\t\t\tbuildActionMask = 2147483647;\n\t\t\tfiles = (\n"

def tp36 : String :=
  "\n\t\t\t);\n\t\t\trunOnlyForDeploymentPostprocessing = 0;\n\t\t\x7d;\n/* End PBXSourcesBuildPhase section */\n\n"

def tp37 : String :=
  "/* Begin XCBuildConfiguration section */\n\t\t"

def tp38 : String :=
  " /* Debug */ = \x7b\n\t\t\tisa = XCBuildConfiguration;\n\t\t\tbuildSettings = \x7b\n\t\t\t\tALWAYS_SEARCH_USER_PATHS = NO;\n"

def tp39 : String :=
  "\t\t\t\tASYNC_COMPILATION_ENABLED = YES;\n\t\t\t\tCLANG_ANALYZER_NONNULL = YES;\n"

def tp40 : String :=
  "\t\t\t\tCLANG_ANALYZER_NUMBER_OBJECT_CONVERSION = YES_AGGRESSIVE;\n\t\t\t\tCLANG_CXX_LANGUAGE_STANDARD = \"gnu++20\";\n"

def tp41 : String :=
  "\t\t\t\tCLANG_ENABLE_MODULES = YES;\n\t\t\t\tCLANG_ENABLE_OBJC_ARC = YES;\n\t\t\t\tCLANG_ENABLE_OBJC_WEAK = YES;\n"

def tp42 : String :=
  "\t\t\t\tCLANG_WARN_BLOCK_CAPTURE_AUTORELEASING = YES;\n\t\t\t\tCLANG_WARN_BOOL_CONVERSION = YES;\n\t\t\t\tCLANG_WARN_COMMA = YES;\n"

def tp43 : String :=
  "\t\t\t\tCLANG_WARN_CONSTANT_CONVERSION = YES;\n\t\t\t\tCLANG_WARN_DEPRECATED_OBJC_IMPLEMENTATIONS = YES;\n"

def tp44 : String :=
  "\t\t\t\tCLANG_WARN_DIRECT_OBJC_ISA_USAGE = YES_ERROR;\n\t\t\t\tCLANG_WARN_DOCUMENTATION_COMMENTS = YES;\n"

def tp45 : String :=
  "\t\t\t\tCLANG_WARN_EMPTY_BODY = YES;\n\t\t\t\tCLANG_WARN_ENUM_CONVERSION = YES;\n\t\t\t\tCLANG_WARN_INFINITE_RECURSION = YES;\n"

def tp46 : String :=
  "\t\t\t\tCLANG_WARN_INT_CONVERSION = YES;\n\t\t\t\tCLANG_WARN_NON_LITERAL_NULL_CONVERSION = YES;\n"

def tp47 : String :=
  "\t\t\t\tCLANG_WARN_OBJC_IMPLICIT_RETAIN_SELF = YES;\n\t\t\t\tCLANG_WARN_OBJC_LITERAL_CONVERSION = YES;\n"

def tp48 : String :=
  "\t\t\t\tCLANG_WARN_OBJC_ROOT_CLASS = YES_ERROR;\n\t\t\t\tCLANG_WARN_QUOTED_INCLUDE_IN_FRAMEWORK_HEADER = YES;\n"

def tp49 : String :=
  "\t\t\t\tCLANG_WARN_RANGE_LOOP_ANALYSIS = YES;\n\t\t\t\tCLANG_WARN_STRICT_PROTOTYPES = YES;\n"

def tp50 : String :=
  "\t\t\t\tCLANG_WARN_SUSPICIOUS_MOVE = YES;\n\t\t\t\tCLANG_WARN_UNGUARDED_AVAILABILITY = YES_AGGRESSIVE;\n"

def tp51 : String :=
  "\t\t\t\tCLANG_WARN_UNREACHABLE_CODE = YES;\n\t\t\t\tCLANG_WARN__DUPLICATE_METHOD_MATCH = YES;\n\t\t\t\tCODE_SIGN_STYLE = Automatic;\n"

def tp52 : String :=
  "\t\t\t\tCOPY_PHASE_STRIP = NO;\n\t\t\t\tDEBUG_INFORMATION_FORMAT = dwarf;\n\t\t\t\tENABLE_STRICT_OBJC_MSGSEND = YES;\n"

def tp53 : String :=
  "\t\t\t\tENABLE_TESTABILITY = YES;\n\t\t\t\tGCC_C_LANGUAGE_STANDARD = gnu17;\n\t\t\t\tGCC_DYNAMIC_NO_PIC = NO;\n"

def tp54 : String :=
  "\t\t\t\tGCC_NO_COMMON_BLOCKS = YES;\n\t\t\t\tGCC_OPTIMIZATION_LEVEL = 0;\n\t\t\t\tGCC_PREPROCESSOR_DEFINITIONS = (\n\t\t\t\t\t\"DEBUG=1\",\n"

def tp55 : String :=
  "\t\t\t\t\t\"$\x7binherited\x7d\",\n\t\t\t\t);\n\t\t\t\tGCC_WARN_64_TO_32_BIT_CONVERSION = YES;\n\t\t\t\tGCC_WARN_ABOUT_RETURN_TYPE = YES_ERROR;\n"

def tp56 : String :=
  "\t\t\t\tGCC_WARN_UNDECLARED_SELECTOR = YES;\n\t\t\t\tGCC_WARN_UNINITIALIZED_AUTOS = YES_AGGRESSIVE;\n"

def tp57 : String :=
  "\t\t\t\tGCC_WARN_UNUSED_FUNCTION = YES;\n\t\t\t\tGCC_WARN_UNUSED_VARIABLE = YES;\n\t\t\t\tMACOSX_DEPLOYMENT_TARGET = 14.0;\n"

def tp58 : String :=
  "\t\t\t\tMTL_ENABLE_DEBUG_INFO = INCLUDE_SOURCE;\n\t\t\t\tMTL_FAST_MATH = YES;\n\t\t\t\tONLY_ACTIVE_ARCH = YES;\n\t\t\t\tSDKROOT = macosx;\n"

def tp59 : String :=
  "\t\t\t\tSWIFT_ACTIVE_COMPILATION_CONDITIONS = \"DEBUG $\x7binherited\x7d\";\n\t\t\t\tSWIFT_OPTIMIZATION_LEVEL = \"-Onone\";\n\t\t\t\x7d;\n"

def tp60 : String :=
  "\t\t\tname = Debug;\n\t\t\x7d;\n\t\t"

def tp61 : String :=
  " /* Release */ = \x7b\n\t\t\tisa = XCBuildConfiguration;\n\t\t\tbuildSettings = \x7b\n\t\t\t\tALWAYS_SEARCH_USER_PATHS = NO;\n"

def tp62 : String :=
  "\t\t\t\tCOPY_PHASE_STRIP = NO;\n\t\t\t\tDEBUG_INFORMATION_FORMAT = \"dwarf-with-dsym\";\n\t\t\t\tENABLE_NS_ASSERTIONS = NO;\n"

def tp63 : String :=
  "\t\t\t\tENABLE_STRICT_OBJC_MSGSEND = YES;\n\t\t\t\tGCC_C_LANGUAGE_STANDARD = gnu17;\n\t\t\t\tGCC_NO_COMMON_BLOCKS = YES;\n"

def tp64 : String :=
  "\t\t\t\tGCC_WARN_64_TO_32_BIT_CONVERSION = YES;\n\t\t\t\tGCC_WARN_ABOUT_RETURN_TYPE = YES_ERROR;\n"

def tp65 : String :=
  "\t\t\t\tMTL_ENABLE_DEBUG_INFO = NO;\n\t\t\t\tMTL_FAST_MATH = YES;\n\t\t\t\tSDKROOT = macosx;\n"

def tp66 : String :=
  "\t\t\t\tSWIFT_COMPILATION_MODE = wholemodule;\n\t\t\t\x7d;\n\t\t\tname = Release;\n\t\t\x7d;\n\t\t"

def tp67 : String :=
  " /* Debug */ = \x7b\n\t\t\tisa = XCBuildConfiguration;\n\t\t\tbuildSettings = \x7b\n\t\t\t\tASAP_METAL_PROJECT_NAME = \"\";\n"

def tp68 : String :=
  "\t\t\t\tASAP_METAL_PROJECT_VERSION = \"\";\n\t\t\t\tCODE_SIGN_STYLE = Automatic;\n\t\t\t\tCREATE_INFOPLIST_SECTION_IN_BINARY = YES;\n"

def tp69 : String :=
  "\t\t\t\tCURRENT_PROJECT_VERSION = 1;\n\t\t\t\tDEVELOPMENT_TEAM = \"\";\n\t\t\t\tENABLE_HARDENED_RUNTIME = YES;\n"

def tp70 : String :=
  "\t\t\t\tENABLE_PREVIEWS = YES;\n\t\t\t\tGENERATE_INFOPLIST_FILE = YES;\n\t\t\t\tINFOPLIST_KEY_NSHumanReadableCopyright = \"\";\n"

def tp71 : String :=
  "\t\t\t\tLD_RUNPATH_SEARCH_PATHS = (\n\t\t\t\t\t\"$\x7binherited\x7d\",\n\t\t\t\t\t\"@executable_path/../Frameworks\",\n\t\t\t\t);\n"

def tp72 : String :=
  "\t\t\t\tMARKETING_VERSION = 1.0;\n\t\t\t\tPRODUCT_BUNDLE_IDENTIFIER = com.novamind.app;\n\t\t\t\tPRODUCT_NAME = \"$\x7bTARGET_NAME\x7d\";\n"

def tp73 : String :=
  "\t\t\t\tSWIFT_EMIT_LOC_STRINGS = YES;\n\t\t\t\tSWIFT_VERSION = 5.0;\n\t\t\t\x7d;\n\t\t\tname = Debug;\n\t\t\x7d;\n\t\t"

def tp74 : String :=
  " /* Release */ = \x7b\n\t\t\tisa = XCBuildConfiguration;\n\t\t\tbuildSettings = \x7b\n\t\t\t\tASAP_METAL_PROJECT_NAME = \"\";\n"

def tp75 : String :=
  "\t\t\t\tSWIFT_EMIT_LOC_STRINGS = YES;\n\t\t\t\tSWIFT_VERSION = 5.0;\n\t\t\t\x7d;\n\t\t\tname = Release;\n\t\t\x7d;\n"

def tp76 : String :=
  "/* End XCBuildConfiguration section */\n\n/* Begin XCConfigurationList section */\n\t\t"

def tp77 : String :=
  " /* Build configuration list for PBXProject \"NovaMind\" */ = \x7b\n\t\t\tisa = XCConfigurationList;\n\t\t\tbuildConfigurations = (\n"

def tp78 : String :=
  "\t\t\t\t"

def tp79 : String :=
  " /* Debug */,\n\t\t\t\t"

def tp80 : String :=
  " /* Release */,\n\t\t\t);\n\t\t\tdefaultConfigurationIsVisible = 0;\n\t\t\tdefaultConfigurationName = Release;\n\t\t\x7d;\n\t\t"

def tp81 : String :=
  " /* Build configuration list for PBXNativeTarget \"NovaMind\" */ = \x7b\n\t\t\tisa = XCConfigurationList;\n"

def tp82 : String :=
  "\t\t\tbuildConfigurations = (\n\t\t\t\t"

def tp83 : String :=
  " /* Release */,\n\t\t\t);\n\t\t\tdefaultConfigurationIsVisible = 0;\n\t\t\tdefaultConfigurationName = Release;\n\t\t\x7d;\n"

def tp84 : String :=
  "/* End XCConfigurationList section */\n\t\x7d;\n"

def pbxPart0 (files : List String) (s : Nat → String) : String :=
  let N := files.length
  tp0 ++ tp1 ++ joinNl (build_files files s) ++ tp2 ++ uuidB s N 5 ++ tp3 ++ uuidB s N 4 ++ tp4 ++ joinNl (file_refs files s) ++ tp2 ++ uuidB s N 4 ++ tp5 ++ tp6 ++ uuidB s N 6 ++ tp7 ++ tp8 ++ uuidB s N 7 ++ tp9 ++ uuidB s N 3 ++ tp10 ++ uuidB s N 8

def pbxPart1 (files : List String) (s : Nat → String) : String :=
  let N := files.length
  tp11 ++ uuidB s N 3 ++ tp12 ++ uuidB s N 4 ++ tp13 ++ uuidB s N 9 ++ tp14 ++ uuidB s N 6 ++ tp15 ++ tp16 ++ uuidB s N 0 ++ tp17 ++ uuidB s N 10 ++ tp18 ++ uuidB s N 1 ++ tp19 ++ uuidB s N 2 ++ tp20 ++ tp21 ++ uuidB s N 6 ++ tp22

def pbxPart2 (files : List String) (s : Nat → String) : String :=
  let N := files.length
  tp23 ++ uuidB s N 11 ++ tp24 ++ tp25 ++ uuidB s N 0 ++ tp26 ++ uuidB s N 12 ++ tp27 ++ tp28 ++ uuidB s N 13 ++ tp29 ++ uuidB s N 14 ++ tp30 ++ uuidB s N 0 ++ tp31 ++ uuidB s N 2 ++ tp32 ++ resEntryLine s N ++ tp33 ++ tp34 ++ uuidB s N 1

def pbxPart3 (files : List String) (s : Nat → String) : String :=
  let N := files.length
  tp35 ++ joinNl (sources_list files s) ++ tp36 ++ tp37 ++ uuidB s N 15 ++ tp38 ++ tp39 ++ tp40 ++ tp41 ++ tp42 ++ tp43 ++ tp44 ++ tp45 ++ tp46 ++ tp47 ++ tp48 ++ tp49 ++ tp50 ++ tp51 ++ tp52 ++ tp53

def pbxPart4 (files : List String) (s : Nat → String) : String :=
  let N := files.length
  tp54 ++ tp55 ++ tp56 ++ tp57 ++ tp58 ++ tp59 ++ tp60 ++ uuidB s N 16 ++ tp61 ++ tp39 ++ tp40 ++ tp41 ++ tp42 ++ tp43 ++ tp44 ++ tp45 ++ tp46 ++ tp47 ++ tp48 ++ tp49 ++ tp50

def pbxPart5 (files : List String) (s : Nat → String) : String :=
  let N := files.length
  tp51 ++ tp62 ++ tp63 ++ tp64 ++ tp56 ++ tp57 ++ tp65 ++ tp66 ++ uuidB s N 17 ++ tp67 ++ tp68 ++ tp69 ++ tp70 ++ tp71 ++ tp72 ++ tp73 ++ uuidB s N 18 ++ tp74 ++ tp68 ++ tp69 ++ tp70

def pbxPart6 (files : List String) (s : Nat → String) : String :=
  let N := files.length
  tp71 ++ tp72 ++ tp75 ++ tp76 ++ uuidB s N 19 ++ tp77 ++ tp78 ++ uuidB s N 20 ++ tp79 ++ uuidB s N 21 ++ tp80 ++ uuidB s N 22 ++ tp81 ++ tp82 ++ uuidB s N 23 ++ tp79 ++ uuidB s N 24 ++ tp83 ++ tp84 ++ rootRefText s N

def projectContent (files : List String) (s : Nat → String) : String :=
  pbxPart0 files s ++ pbxPart1 files s ++ pbxPart2 files s ++ pbxPart3 files s ++ pbxPart4 files s ++ pbxPart5 files s ++ pbxPart6 files s

/-- Structural invariant of scan values: the minimum prefix depth is at most
zero and at most the final depth. -/
def ScanInv (v : Scan3) : Prop :=
  v.bm ≤ 0 ∧ v.bm ≤ v.bd ∧ v.pm ≤ 0 ∧ v.pm ≤ v.pd

-- Character classes

/-- The uppercase hexadecimal digits — the alphabet of a generated identifier. -/
def upHexChars : List Char :=
  ['0', '1', '2', '3', '4', '5', '6', '7', '8', '9', 'A', 'B', 'C', 'D', 'E', 'F']

def isUpHex (c : Char) : Bool := upHexChars.contains c

/-- A well-formed identifier token: 24 uppercase hexadecimal characters. -/
def isHexId (u : String) : Bool := u.data.length == 24 && u.data.all isUpHex

/-- The bare-token alphabet of the target text format: values made of these
characters may be emitted without quoting. -/
def isBareChar (c : Char) : Bool :=
  c.isAlphanum || c = '.' || c = '_' || c = '/' || c = '-' || c = '$'

-- A concrete model of the uuid4 draw stream, used for witnesses: the n-th raw
-- draw is two hex digits encoding n followed by thirty f characters.

def hexChar (n : Nat) : Char := if n < 10 then Char.ofNat (48 + n) else Char.ofNat (87 + n)

def demoSupply (n : Nat) : String :=
  String.mk (hexChar (n / 16 % 16) :: hexChar (n % 16) :: List.replicate 30 'f')

-- Whitespace tokenizer

def isWs (c : Char) : Bool := c == ' ' || c == '\t' || c == '\n'

def prependTok (a : List Char) : List (List Char) → List (List Char)
  | [] => [a]
  | h :: r => (a ++ h) :: r

def splitWs : List Char → List (List Char)
  | [] => [[]]
  | c :: t => if isWs c then [] :: splitWs t else prependTok [c] (splitWs t)

def isHexTok (l : List Char) : Bool := l.length == 24 && l.all isUpHex

/-- The whitespace-delimited tokens of `str` that look like generated
identifiers: 24 characters, all uppercase hex. -/
def hexIds (str : String) : List String :=
  ((splitWs str.data).filter isHexTok).map String.mk

/-- Hypothesis bundle for a discovered path: its basename is whitespace-free
and does not itself look like a generated identifier. -/
def goodName (p : String) : Prop :=
  (∀ c ∈ (basename p).data, isWs c = false) ∧ isHexTok (basename p).data = false

instance goodNameDecidable (p : String) : Decidable (goodName p) := by
  unfold goodName
  infer_instance

-- Identifier bookkeeping: which generate_uuid draws name a record defined in
-- the `objects` mapping, and which draws are emitted as references.

/-- Draw indices of the record heads defined in `objects`, in template
emission order: the N PBXBuildFile entries (draws `2*i+1`), the static assets
build file (`2*N+5`), the N PBXFileReference entries (draws `2*i`), the assets
and app file references (`2*N+4`, `2*N+6`), the three groups (`2*N+7`,
`2*N+3`, `2*N+9`), the native target (`2*N+0`), the project (`2*N+11`), the
two build phases (`2*N+2`, `2*N+1`), the four build configurations
(`2*N+15 … 2*N+18`) and the two configuration lists (`2*N+19`, `2*N+22`). -/
def definedIdx (N : Nat) : List Nat :=
  ((List.range N).map (fun i => 2 * i + 1)) ++ [2 * N + 5] ++
    ((List.range N).map (fun i => 2 * i)) ++
    [2 * N + 4, 2 * N + 6, 2 * N + 7, 2 * N + 3, 2 * N + 9, 2 * N + 0, 2 * N + 11,
     2 * N + 2, 2 * N + 1, 2 * N + 15, 2 * N + 16, 2 * N + 17, 2 * N + 18, 2 * N + 19,
     2 * N + 22]

/-- Draw indices of every identifier reference embedded in a record, in
template emission order: the N `fileRef` fields (draws `2*i`) plus the assets
`fileRef` (`2*N+4`); the group children (`2*N+3`, the fresh Products child
`2*N+8`, `2*N+4`, `2*N+6`); the configuration list of the target (`2*N+10`), its
build phases (`2*N+1`, `2*N+2`) and product reference (`2*N+6`); the
target-attribute key of the project (`2*N+0`), configuration list (`2*N+12`),
`mainGroup` (`2*N+13`), `productRefGroup` (`2*N+14`) and `targets` entry
(`2*N+0`); the resources-phase entry (`2*N+5`); the N sources-phase entries
(draws `2*i+1`); the `buildConfigurations` entries of the two configuration
lists (`2*N+20`, `2*N+21`, `2*N+23`, `2*N+24`); and `rootObject`
(`2*N+25`). -/
def referencedIdx (N : Nat) : List Nat :=
  ((List.range N).map (fun i => 2 * i)) ++ [2 * N + 4] ++
    [2 * N + 3, 2 * N + 8, 2 * N + 4, 2 * N + 6] ++
    [2 * N + 10, 2 * N + 1, 2 * N + 2, 2 * N + 6] ++
    [2 * N + 0, 2 * N + 12, 2 * N + 13, 2 * N + 14, 2 * N + 0] ++
    [2 * N + 5] ++ ((List.range N).map (fun i => 2 * i + 1)) ++
    [2 * N + 20, 2 * N + 21, 2 * N + 23, 2 * N + 24, 2 * N + 25]

/-- The identifiers of the records defined in the emitted `objects` mapping. -/
def definedIds (files : List String) (s : Nat → String) : List String :=
  (definedIdx files.length).map (uuidAt s)

/-- The identifiers referenced from inside the emitted records. -/
def referencedIds (files : List String) (s : Nat → String) : List String :=
  (referencedIdx files.length).map (uuidAt s)

/-- The write step of `create_xcode_project` (create_clean_project.py lines
360-362): the file is opened and the full content written in one call.  No
check of any kind is performed before the write, so serialization always
succeeds with the whole text. -/
def writeDescriptor (files : List String) (s : Nat → String) : Except String String :=
  Except.ok (projectContent files s)

-- Path-field extraction, for the quoting question of §4.4.

/-- The suffix of `l` after the first occurrence of `pat`, if any. -/
def afterPat (pat : List Char) : List Char → Option (List Char)
  | [] => if pat = [] then some [] else none
  | c :: t => if pat.isPrefixOf (c :: t) then some ((c :: t).drop pat.length)
      else afterPat pat t

/-- The value of the first `path = ` field of `line`: the characters after
`path = ` up to the terminating `;`. -/
def pathValue (line : String) : Option String :=
  (afterPat "path = ".data line.data).map (fun r => String.mk (r.takeWhile (fun c => c ≠ ';')))

/-- The escaping rule of the serializer contract: a field value is
well-formed if it consists of bare-alphabet characters only, or else is
wrapped in double quotes. -/
def fieldEscapedOk (v : String) : Bool :=
  v.data.all isBareChar ||
    (v.data.head? == some '"' && v.data.getLast? == some '"')

-- The patch scripts fix_project_paths.py and fix_project_paths_v2.py
-- (claim C9).  Both have the same shape: an argv-count check, then a
-- try-block that loads, looks up, mutates and saves, then
-- `except Exception as e: print(...); sys.exit(1)`.  The interaction
-- of the try-block with the pbxproj library is abstracted as its outcome: the
-- lines it printed before finishing or raising, and the raised message, if
-- any.

structure TryOutcome where
  printed : List String
  raised : Option String

/-- Model of `main` of fix_project_paths.py: returns (printed lines, exit code). -/
def fixProjectPathsMain (argv : List String) (body : TryOutcome) : List String × Nat :=
  if argv.length ≠ 2 then (["Usage: python fix_project.py <project_path>"], 1)
  else
    match body.raised with
    | some msg => (body.printed ++ ["An error occurred: " ++ msg], 1)
    | none => (body.printed, 0)

/-- Model of `main` of fix_project_paths_v2.py: identical control flow, different
usage string. -/
def fixProjectPathsV2Main (argv : List String) (body : TryOutcome) : List String × Nat :=
  if argv.length ≠ 2 then (["Usage: python fix_project_paths_v2.py <project_path>"], 1)
  else
    match body.raised with
    | some msg => (body.printed ++ ["An error occurred: " ++ msg], 1)
    | none => (body.printed, 0)

-- fix_project_paths_v4.py (claim C10): two hard-coded guarded path rewrites
-- against the loaded descriptor graph.  The graph is a keyed list of
-- entries; each entry has a `path` field and an arbitrary remainder `rest`
-- (every other attribute of the object).

structure PbxEntry (α : Type) where
  path : String
  rest : α

def getObject {α : Type} (g : List (String × PbxEntry α)) (i : String) :
    Option (PbxEntry α) :=
  (g.find? (fun e => e.fst == i)).map (fun e => e.snd)

def setPath {α : Type} (g : List (String × PbxEntry α)) (i : String) (newPath : String) :
    List (String × PbxEntry α) :=
  g.map (fun e => if e.fst == i then (e.fst, ⟨newPath, e.snd.rest⟩) else e)

/-- One guarded fix of fix_project_paths_v4.py: look up the hard-coded
identifier; if the object exists (is truthy) and its `path` equals the
expected old value, rewrite the path; otherwise leave the graph unchanged. -/
def v4Fix {α : Type} (g : List (String × PbxEntry α)) (i oldPath newPath : String) :
    List (String × PbxEntry α) :=
  match getObject g i with
  | some o => if o.path == oldPath then setPath g i newPath else g
  | none => g

def v4Id1 : String := "67069FBC2E34E7EC00B79643"
def v4Id2 : String := "6706A0192E34E82200B79643"
def v4Old1 : String := "MessageRowOptimized.swift"
def v4New1 : String := "../../MessageRowOptimized.swift"
def v4Old2 : String := "Resources/Sources/Core/WebSocketManager.swift"
def v4New2 : String := "../Resources/Sources/Core/WebSocketManager.swift"

/-- The whole mutation performed by fix_project_paths_v4.py between load and
save: the MessageRowOptimized fix (lines 15-20) followed by the
WebSocketManager fix (lines 22-27). -/
def fixV4Transform {α : Type} (g : List (String × PbxEntry α)) :
    List (String × PbxEntry α) :=
  v4Fix (v4Fix g v4Id1 v4Old1 v4New1) v4Id2 v4Old2 v4New2

/-- A draw stream whose first two draws coincide — the modelled uuid4
collision scenario. -/
def collSupply (n : Nat) : String :=
  if n < 2 then "cafecafecafecafecafecafecafecafe" else demoSupply n

-- Scan values of each literal piece, computed by kernel evaluation.

set_option maxRecDepth 25000 in
theorem scan_tp0 : scanS tp0 = ⟨2, 0, 0, 0, false⟩ := by decide

set_option maxRecDepth 25000 in
theorem scan_tp1 : scanS tp1 = ⟨0, 0, 0, 0, false⟩ := by decide

set_option maxRecDepth 25000 in
theorem scan_tp2 : scanS tp2 = ⟨0, 0, 0, 0, false⟩ := by decide

set_option maxRecDepth 25000 in
theorem scan_tp3 : scanS tp3 = ⟨1, 0, 0, 0, false⟩ := by decide

set_option maxRecDepth 25000 in
theorem scan_tp4 : scanS tp4 = ⟨-1, -1, 0, 0, false⟩ := by decide

set_option maxRecDepth 25000 in
theorem scan_tp5 : scanS tp5 = ⟨1, 0, 0, 0, false⟩ := by decide

set_option maxRecDepth 25000 in
theorem scan_tp6 : scanS tp6 = ⟨-1, -1, 0, 0, false⟩ := by decide

set_option maxRecDepth 25000 in
theorem scan_tp7 : scanS tp7 = ⟨1, 0, 0, 0, false⟩ := by decide

set_option maxRecDepth 25000 in
theorem scan_tp8 : scanS tp8 = ⟨-1, -1, 0, 0, false⟩ := by decide

set_option maxRecDepth 25000 in
theorem scan_tp9 : scanS tp9 = ⟨1, 0, 1, 0, false⟩ := by decide

set_option maxRecDepth 25000 in
theorem scan_tp10 : scanS tp10 = ⟨0, 0, 0, 0, false⟩ := by decide

set_option maxRecDepth 25000 in
theorem scan_tp11 : scanS tp11 = ⟨-1, -1, -1, -1, false⟩ := by decide

set_option maxRecDepth 25000 in
theorem scan_tp12 : scanS tp12 = ⟨1, 0, 1, 0, false⟩ := by decide

set_option maxRecDepth 25000 in
theorem scan_tp13 : scanS tp13 = ⟨-1, -1, -1, -1, false⟩ := by decide

set_option maxRecDepth 25000 in
theorem scan_tp14 : scanS tp14 = ⟨1, 0, 1, 0, false⟩ := by decide

set_option maxRecDepth 25000 in
theorem scan_tp15 : scanS tp15 = ⟨-1, -1, -1, -1, false⟩ := by decide

set_option maxRecDepth 25000 in
theorem scan_tp16 : scanS tp16 = ⟨0, 0, 0, 0, false⟩ := by decide

set_option maxRecDepth 25000 in
theorem scan_tp17 : scanS tp17 = ⟨1, 0, 0, 0, false⟩ := by decide

set_option maxRecDepth 25000 in
theorem scan_tp18 : scanS tp18 = ⟨0, 0, 1, 0, false⟩ := by decide

set_option maxRecDepth 25000 in
theorem scan_tp19 : scanS tp19 = ⟨0, 0, 0, 0, false⟩ := by decide

set_option maxRecDepth 25000 in
theorem scan_tp20 : scanS tp20 = ⟨0, 0, -1, -1, false⟩ := by decide

set_option maxRecDepth 25000 in
theorem scan_tp21 : scanS tp21 = ⟨0, 0, 0, 0, false⟩ := by decide

set_option maxRecDepth 25000 in
theorem scan_tp22 : scanS tp22 = ⟨-1, -1, 0, 0, false⟩ := by decide

set_option maxRecDepth 25000 in
theorem scan_tp23 : scanS tp23 = ⟨0, 0, 0, 0, false⟩ := by decide

set_option maxRecDepth 25000 in
theorem scan_tp24 : scanS tp24 = ⟨2, 0, 0, 0, false⟩ := by decide

set_option maxRecDepth 25000 in
theorem scan_tp25 : scanS tp25 = ⟨1, 0, 0, 0, false⟩ := by decide

set_option maxRecDepth 25000 in
theorem scan_tp26 : scanS tp26 = ⟨-2, -2, 0, 0, false⟩ := by decide

set_option maxRecDepth 25000 in
theorem scan_tp27 : scanS tp27 = ⟨0, 0, 0, 0, false⟩ := by decide

set_option maxRecDepth 25000 in
theorem scan_tp28 : scanS tp28 = ⟨0, 0, 0, 0, false⟩ := by decide

set_option maxRecDepth 25000 in
theorem scan_tp29 : scanS tp29 = ⟨0, 0, 0, 0, false⟩ := by decide

set_option maxRecDepth 25000 in
theorem scan_tp30 : scanS tp30 = ⟨0, 0, 1, 0, false⟩ := by decide

set_option maxRecDepth 25000 in
theorem scan_tp31 : scanS tp31 = ⟨-1, -1, -1, -1, false⟩ := by decide

set_option maxRecDepth 25000 in
theorem scan_tp32 : scanS tp32 = ⟨1, 0, 1, 0, false⟩ := by decide

set_option maxRecDepth 25000 in
theorem scan_tp33 : scanS tp33 = ⟨-1, -1, -1, -1, false⟩ := by decide

set_option maxRecDepth 25000 in
theorem scan_tp34 : scanS tp34 = ⟨0, 0, 0, 0, false⟩ := by decide

set_option maxRecDepth 25000 in
theorem scan_tp35 : scanS tp35 = ⟨1, 0, 1, 0, false⟩ := by decide

set_option maxRecDepth 25000 in
theorem scan_tp36 : scanS tp36 = ⟨-1, -1, -1, -1, false⟩ := by decide

set_option maxRecDepth 25000 in
theorem scan_tp37 : scanS tp37 = ⟨0, 0, 0, 0, false⟩ := by decide

set_option maxRecDepth 25000 in
theorem scan_tp38 : scanS tp38 = ⟨2, 0, 0, 0, false⟩ := by decide

set_option maxRecDepth 25000 in
theorem scan_tp39 : scanS tp39 = ⟨0, 0, 0, 0, false⟩ := by decide

set_option maxRecDepth 25000 in
theorem scan_tp40 : scanS tp40 = ⟨0, 0, 0, 0, false⟩ := by decide

set_option maxRecDepth 25000 in
theorem scan_tp41 : scanS tp41 = ⟨0, 0, 0, 0, false⟩ := by decide

set_option maxRecDepth 25000 in
theorem scan_tp42 : scanS tp42 = ⟨0, 0, 0, 0, false⟩ := by decide

set_option maxRecDepth 25000 in
theorem scan_tp43 : scanS tp43 = ⟨0, 0, 0, 0, false⟩ := by decide

set_option maxRecDepth 25000 in
theorem scan_tp44 : scanS tp44 = ⟨0, 0, 0, 0, false⟩ := by decide

set_option maxRecDepth 25000 in
theorem scan_tp45 : scanS tp45 = ⟨0, 0, 0, 0, false⟩ := by decide

set_option maxRecDepth 25000 in
theorem scan_tp46 : scanS tp46 = ⟨0, 0, 0, 0, false⟩ := by decide

set_option maxRecDepth 25000 in
theorem scan_tp47 : scanS tp47 = ⟨0, 0, 0, 0, false⟩ := by decide

set_option maxRecDepth 25000 in
theorem scan_tp48 : scanS tp48 = ⟨0, 0, 0, 0, false⟩ := by decide

set_option maxRecDepth 25000 in
theorem scan_tp49 : scanS tp49 = ⟨0, 0, 0, 0, false⟩ := by decide

set_option maxRecDepth 25000 in
theorem scan_tp50 : scanS tp50 = ⟨0, 0, 0, 0, false⟩ := by decide

set_option maxRecDepth 25000 in
theorem scan_tp51 : scanS tp51 = ⟨0, 0, 0, 0, false⟩ := by decide

set_option maxRecDepth 25000 in
theorem scan_tp52 : scanS tp52 = ⟨0, 0, 0, 0, false⟩ := by decide

set_option maxRecDepth 25000 in
theorem scan_tp53 : scanS tp53 = ⟨0, 0, 0, 0, false⟩ := by decide

set_option maxRecDepth 25000 in
theorem scan_tp54 : scanS tp54 = ⟨0, 0, 1, 0, false⟩ := by decide

set_option maxRecDepth 25000 in
theorem scan_tp55 : scanS tp55 = ⟨0, 0, -1, -1, false⟩ := by decide

set_option maxRecDepth 25000 in
theorem scan_tp56 : scanS tp56 = ⟨0, 0, 0, 0, false⟩ := by decide

set_option maxRecDepth 25000 in
theorem scan_tp57 : scanS tp57 = ⟨0, 0, 0, 0, false⟩ := by decide

set_option maxRecDepth 25000 in
theorem scan_tp58 : scanS tp58 = ⟨0, 0, 0, 0, false⟩ := by decide

set_option maxRecDepth 25000 in
theorem scan_tp59 : scanS tp59 = ⟨-1, -1, 0, 0, false⟩ := by decide

set_option maxRecDepth 25000 in
theorem scan_tp60 : scanS tp60 = ⟨-1, -1, 0, 0, false⟩ := by decide

set_option maxRecDepth 25000 in
theorem scan_tp61 : scanS tp61 = ⟨2, 0, 0, 0, false⟩ := by decide

set_option maxRecDepth 25000 in
theorem scan_tp62 : scanS tp62 = ⟨0, 0, 0, 0, false⟩ := by decide

set_option maxRecDepth 25000 in
theorem scan_tp63 : scanS tp63 = ⟨0, 0, 0, 0, false⟩ := by decide

set_option maxRecDepth 25000 in
theorem scan_tp64 : scanS tp64 = ⟨0, 0, 0, 0, false⟩ := by decide

set_option maxRecDepth 25000 in
theorem scan_tp65 : scanS tp65 = ⟨0, 0, 0, 0, false⟩ := by decide

set_option maxRecDepth 25000 in
theorem scan_tp66 : scanS tp66 = ⟨-2, -2, 0, 0, false⟩ := by decide

set_option maxRecDepth 25000 in
theorem scan_tp67 : scanS tp67 = ⟨2, 0, 0, 0, false⟩ := by decide

set_option maxRecDepth 25000 in
theorem scan_tp68 : scanS tp68 = ⟨0, 0, 0, 0, false⟩ := by decide

set_option maxRecDepth 25000 in
theorem scan_tp69 : scanS tp69 = ⟨0, 0, 0, 0, false⟩ := by decide

set_option maxRecDepth 25000 in
theorem scan_tp70 : scanS tp70 = ⟨0, 0, 0, 0, false⟩ := by decide

set_option maxRecDepth 25000 in
theorem scan_tp71 : scanS tp71 = ⟨0, 0, 0, 0, false⟩ := by decide

set_option maxRecDepth 25000 in
theorem scan_tp72 : scanS tp72 = ⟨0, 0, 0, 0, false⟩ := by decide

set_option maxRecDepth 25000 in
theorem scan_tp73 : scanS tp73 = ⟨-2, -2, 0, 0, false⟩ := by decide

set_option maxRecDepth 25000 in
theorem scan_tp74 : scanS tp74 = ⟨2, 0, 0, 0, false⟩ := by decide

set_option maxRecDepth 25000 in
theorem scan_tp75 : scanS tp75 = ⟨-2, -2, 0, 0, false⟩ := by decide

set_option maxRecDepth 25000 in
theorem scan_tp76 : scanS tp76 = ⟨0, 0, 0, 0, false⟩ := by decide

set_option maxRecDepth 25000 in
theorem scan_tp77 : scanS tp77 = ⟨1, 0, 1, 0, false⟩ := by decide

set_option maxRecDepth 25000 in
theorem scan_tp78 : scanS tp78 = ⟨0, 0, 0, 0, false⟩ := by decide

set_option maxRecDepth 25000 in
theorem scan_tp79 : scanS tp79 = ⟨0, 0, 0, 0, false⟩ := by decide

set_option maxRecDepth 25000 in
theorem scan_tp80 : scanS tp80 = ⟨-1, -1, -1, -1, false⟩ := by decide

set_option maxRecDepth 25000 in
theorem scan_tp81 : scanS tp81 = ⟨1, 0, 0, 0, false⟩ := by decide

set_option maxRecDepth 25000 in
theorem scan_tp82 : scanS tp82 = ⟨0, 0, 1, 0, false⟩ := by decide

set_option maxRecDepth 25000 in
theorem scan_tp83 : scanS tp83 = ⟨-1, -1, -1, -1, false⟩ := by decide

set_option maxRecDepth 25000 in
theorem scan_tp84 : scanS tp84 = ⟨-1, -1, 0, 0, false⟩ := by decide

-- Scan composition engine

theorem data_append (a b : String) : (a ++ b).data = a.data ++ b.data := rfl

theorem strAppend_assoc (a b c : String) : (a ++ b) ++ c = a ++ (b ++ c) :=
  String.ext (by simp only [data_append, List.append_assoc])

theorem scanInv_charScan (c : Char) : ScanInv (charScan c) := by
  unfold charScan
  split
  · exact ⟨le_refl _, by norm_num, le_refl _, le_refl _⟩
  split
  · exact ⟨by norm_num, le_refl _, le_refl _, le_refl _⟩
  split
  · exact ⟨le_refl _, le_refl _, le_refl _, by norm_num⟩
  split
  · exact ⟨le_refl _, le_refl _, by norm_num, le_refl _⟩
  split
  · exact ⟨le_refl _, le_refl _, le_refl _, le_refl _⟩
  · exact ⟨le_refl _, le_refl _, le_refl _, le_refl _⟩

theorem scanInv_comb {a b : Scan3} (ha : ScanInv a) (hb : ScanInv b) :
    ScanInv (comb a b) := by
  obtain ⟨a1, a2, a3, a4⟩ := ha
  obtain ⟨b1, b2, b3, b4⟩ := hb
  refine ⟨?_, ?_, ?_, ?_⟩ <;> simp [comb] <;> omega

theorem scanInv_scan3 (l : List Char) : ScanInv (scan3 l) := by
  induction l with
  | nil => exact ⟨le_refl _, le_refl _, le_refl _, le_refl _⟩
  | cons c t ih => exact scanInv_comb (scanInv_charScan c) ih

theorem comb_assoc (a b c : Scan3) : comb (comb a b) c = comb a (comb b c) := by
  obtain ⟨a1, a2, a3, a4, a5⟩ := a
  obtain ⟨b1, b2, b3, b4, b5⟩ := b
  obtain ⟨c1, c2, c3, c4, c5⟩ := c
  simp only [comb, Scan3.mk.injEq]
  refine ⟨by omega, by omega, by omega, by omega, ?_⟩
  cases a5 <;> cases b5 <;> cases c5 <;> rfl

theorem comb_unit_left {v : Scan3} (h : ScanInv v) : comb scanUnit v = v := by
  obtain ⟨v1, v2, v3, v4, v5⟩ := v
  obtain ⟨h1, h2, h3, h4⟩ := h
  simp only [comb, scanUnit, Scan3.mk.injEq]
  refine ⟨by omega, ?_, by omega, ?_, by cases v5 <;> rfl⟩
  · simp only at h1 h2 ⊢; omega
  · simp only at h3 h4 ⊢; omega

theorem scan3_append (l1 l2 : List Char) :
    scan3 (l1 ++ l2) = comb (scan3 l1) (scan3 l2) := by
  induction l1 with
  | nil =>
      simp only [List.nil_append, scan3]
      exact (comb_unit_left (scanInv_scan3 l2)).symm
  | cons c t ih =>
      have hstep : scan3 ((c :: t) ++ l2) = comb (charScan c) (scan3 (t ++ l2)) := rfl
      rw [hstep, ih, ← comb_assoc]
      rfl

theorem scanS_append (a b : String) : scanS (a ++ b) = comb (scanS a) (scanS b) := by
  simp only [scanS, data_append, scan3_append]

theorem scan3_neutral {l : List Char} (h : ∀ c ∈ l, charScan c = scanUnit) :
    scan3 l = scanUnit := by
  induction l with
  | nil => rfl
  | cons c t ih =>
      have hc := h c (List.mem_cons_self c t)
      have ht := ih (fun x hx => h x (List.mem_cons_of_mem c hx))
      simp only [scan3, hc, ht]
      decide

theorem charScan_of_upHex {c : Char} (h : isUpHex c = true) : charScan c = scanUnit := by
  have hm : c ∈ upHexChars := by
    simpa [isUpHex, List.contains_iff_exists_mem_beq, beq_iff_eq] using h
  fin_cases hm <;> decide

theorem charScan_of_bare {c : Char} (h : isBareChar c = true) : charScan c = scanUnit := by
  by_cases h1 : c = '\x7b'
  · subst h1; exact absurd h (by decide)
  by_cases h2 : c = '\x7d'
  · subst h2; exact absurd h (by decide)
  by_cases h3 : c = '('
  · subst h3; exact absurd h (by decide)
  by_cases h4 : c = ')'
  · subst h4; exact absurd h (by decide)
  by_cases h5 : c = '"'
  · subst h5; exact absurd h (by decide)
  simp [charScan, h1, h2, h3, h4, h5]

theorem scanS_of_hexId {u : String} (h : isHexId u = true) : scanS u = scanUnit := by
  have hall : ∀ c ∈ u.data, isUpHex c = true := by
    simp only [isHexId, Bool.and_eq_true, List.all_eq_true] at h
    exact h.2
  exact scan3_neutral (fun c hc => charScan_of_upHex (hall c hc))

theorem scanS_of_bare {n : String} (h : n.data.all isBareChar = true) :
    scanS n = scanUnit := by
  have hall : ∀ c ∈ n.data, isBareChar c = true := List.all_eq_true.mp h
  exact scan3_neutral (fun c hc => charScan_of_bare (hall c hc))

theorem scanS_joinNl : ∀ (ls : List String),
    (∀ x ∈ ls, scanS x = scanUnit) → scanS (joinNl ls) = scanUnit
  | [], _ => rfl
  | [x], h => by simpa [joinNl] using h x (by simp)
  | x :: y :: t, h => by
      have hx := h x (by simp)
      have ht := scanS_joinNl (y :: t) (fun z hz => h z (List.mem_cons_of_mem x hz))
      simp only [joinNl, scanS_append, hx, ht]
      decide

-- Per-line scans: each generated record line is internally balanced.

set_option maxRecDepth 8000 in
theorem scanS_fileRefLine {u n : String} (hu : scanS u = scanUnit)
    (hn : scanS n = scanUnit) : scanS (fileRefLine u n) = scanUnit := by
  simp only [fileRefLine, scanS_append, hu, hn]
  decide

set_option maxRecDepth 8000 in
theorem scanS_buildFileLine {bu n ref : String} (hb : scanS bu = scanUnit)
    (hn : scanS n = scanUnit) (hr : scanS ref = scanUnit) :
    scanS (buildFileLine bu n ref) = scanUnit := by
  simp only [buildFileLine, scanS_append, hb, hn, hr]
  decide

set_option maxRecDepth 8000 in
theorem scanS_sourcesLine {bu n : String} (hb : scanS bu = scanUnit)
    (hn : scanS n = scanUnit) : scanS (sourcesLine bu n) = scanUnit := by
  simp only [sourcesLine, scanS_append, hb, hn]
  decide

set_option maxRecDepth 8000 in
theorem scanS_resEntryLine {s : Nat → String} {N : Nat}
    (hu : ∀ k, scanS (uuidAt s k) = scanUnit) :
    scanS (resEntryLine s N) = scanUnit := by
  simp only [resEntryLine, uuidB, scanS_append, hu]
  decide

set_option maxRecDepth 8000 in
theorem scanS_rootRefText {s : Nat → String} {N : Nat}
    (hu : ∀ k, scanS (uuidAt s k) = scanUnit) :
    scanS (rootRefText s N) = ⟨-1, -1, 0, 0, false⟩ := by
  simp only [rootRefText, uuidB, scanS_append, hu]
  decide

-- Scan value of each template part, given neutral identifier tokens and
-- neutral joined per-file line blocks.

set_option maxRecDepth 4000 in
theorem scan_pbxPart0 (files : List String) (s : Nat → String)
    (hu : ∀ k, scanS (uuidAt s k) = scanUnit) (hjb : scanS (joinNl (build_files files s)) = scanUnit) (hjr : scanS (joinNl (file_refs files s)) = scanUnit) :
    scanS (pbxPart0 files s) = ⟨3, 0, 1, 0, false⟩ := by
  simp only [pbxPart0, uuidB, scanS_append, hu, hjb, hjr, scan_tp0, scan_tp1, scan_tp2, scan_tp3, scan_tp4, scan_tp5, scan_tp6, scan_tp7, scan_tp8, scan_tp9, scan_tp10]
  decide

set_option maxRecDepth 4000 in
theorem scan_pbxPart1 (files : List String) (s : Nat → String)
    (hu : ∀ k, scanS (uuidAt s k) = scanUnit) :
    scanS (pbxPart1 files s) = ⟨-1, -1, -1, -1, false⟩ := by
  simp only [pbxPart1, uuidB, scanS_append, hu, scan_tp11, scan_tp12, scan_tp13, scan_tp14, scan_tp15, scan_tp16, scan_tp17, scan_tp18, scan_tp19, scan_tp20, scan_tp21, scan_tp22]
  decide

set_option maxRecDepth 4000 in
theorem scan_pbxPart2 (files : List String) (s : Nat → String)
    (hu : ∀ k, scanS (uuidAt s k) = scanUnit) :
    scanS (pbxPart2 files s) = ⟨0, 0, 0, 0, false⟩ := by
  simp only [pbxPart2, uuidB, scanS_append, hu, scanS_resEntryLine hu, scan_tp23, scan_tp24, scan_tp25, scan_tp26, scan_tp27, scan_tp28, scan_tp29, scan_tp30, scan_tp31, scan_tp32, scan_tp33, scan_tp34]
  decide

set_option maxRecDepth 4000 in
theorem scan_pbxPart3 (files : List String) (s : Nat → String)
    (hu : ∀ k, scanS (uuidAt s k) = scanUnit) (hjs : scanS (joinNl (sources_list files s)) = scanUnit) :
    scanS (pbxPart3 files s) = ⟨2, 0, 0, 0, false⟩ := by
  simp only [pbxPart3, uuidB, scanS_append, hu, hjs, scan_tp35, scan_tp36, scan_tp37, scan_tp38, scan_tp39, scan_tp40, scan_tp41, scan_tp42, scan_tp43, scan_tp44, scan_tp45, scan_tp46, scan_tp47, scan_tp48, scan_tp49, scan_tp50, scan_tp51, scan_tp52, scan_tp53]
  decide

set_option maxRecDepth 4000 in
theorem scan_pbxPart4 (files : List String) (s : Nat → String)
    (hu : ∀ k, scanS (uuidAt s k) = scanUnit) :
    scanS (pbxPart4 files s) = ⟨0, -2, 0, 0, false⟩ := by
  simp only [pbxPart4, uuidB, scanS_append, hu, scan_tp39, scan_tp40, scan_tp41, scan_tp42, scan_tp43, scan_tp44, scan_tp45, scan_tp46, scan_tp47, scan_tp48, scan_tp49, scan_tp50, scan_tp54, scan_tp55, scan_tp56, scan_tp57, scan_tp58, scan_tp59, scan_tp60, scan_tp61]
  decide

set_option maxRecDepth 4000 in
theorem scan_pbxPart5 (files : List String) (s : Nat → String)
    (hu : ∀ k, scanS (uuidAt s k) = scanUnit) :
    scanS (pbxPart5 files s) = ⟨0, -2, 0, 0, false⟩ := by
  simp only [pbxPart5, uuidB, scanS_append, hu, scan_tp51, scan_tp56, scan_tp57, scan_tp62, scan_tp63, scan_tp64, scan_tp65, scan_tp66, scan_tp67, scan_tp68, scan_tp69, scan_tp70, scan_tp71, scan_tp72, scan_tp73, scan_tp74]
  decide

set_option maxRecDepth 4000 in
theorem scan_pbxPart6 (files : List String) (s : Nat → String)
    (hu : ∀ k, scanS (uuidAt s k) = scanUnit) :
    scanS (pbxPart6 files s) = ⟨-4, -4, 0, 0, false⟩ := by
  simp only [pbxPart6, uuidB, scanS_append, hu, scanS_rootRefText hu, scan_tp71, scan_tp72, scan_tp75, scan_tp76, scan_tp77, scan_tp78, scan_tp79, scan_tp80, scan_tp81, scan_tp82, scan_tp83, scan_tp84]
  decide

set_option maxRecDepth 4000 in
/-- Under neutral tokens and neutral per-file blocks the whole serialized
template is balanced: braces and parentheses close exactly and never dip
below top level, and quotes pair up. -/
theorem scanS_projectContent (files : List String) (s : Nat → String)
    (hu : ∀ k, scanS (uuidAt s k) = scanUnit)
    (hjb : scanS (joinNl (build_files files s)) = scanUnit)
    (hjr : scanS (joinNl (file_refs files s)) = scanUnit)
    (hjs : scanS (joinNl (sources_list files s)) = scanUnit) :
    scanS (projectContent files s) = scanUnit := by
  simp only [projectContent, scanS_append,
    scan_pbxPart0 files s hu hjb hjr, scan_pbxPart1 files s hu,
    scan_pbxPart2 files s hu, scan_pbxPart3 files s hu hjs,
    scan_pbxPart4 files s hu, scan_pbxPart5 files s hu,
    scan_pbxPart6 files s hu]
  decide

-- Neutrality of the generated per-file blocks, and the main well-formedness helper.

theorem scanS_mem_build_filesAux {s : Nat → String}
    (hu : ∀ k, scanS (uuidAt s k) = scanUnit) :
    ∀ (k : Nat) (files : List String), (∀ p ∈ files, scanS (basename p) = scanUnit) →
      ∀ x ∈ build_filesAux s k files, scanS x = scanUnit := by
  intro k files
  induction files generalizing k with
  | nil => intro _ x hx; simp [build_filesAux] at hx
  | cons p ps ih =>
      intro hn x hx
      simp only [build_filesAux, List.mem_cons] at hx
      rcases hx with hx | hx
      · subst hx
        exact scanS_buildFileLine (hu _) (hn p (by simp)) (hu _)
      · exact ih (k + 1) (fun q hq => hn q (List.mem_cons_of_mem p hq)) x hx

theorem scanS_mem_file_refsAux {s : Nat → String}
    (hu : ∀ k, scanS (uuidAt s k) = scanUnit) :
    ∀ (k : Nat) (files : List String), (∀ p ∈ files, scanS (basename p) = scanUnit) →
      ∀ x ∈ file_refsAux s k files, scanS x = scanUnit := by
  intro k files
  induction files generalizing k with
  | nil => intro _ x hx; simp [file_refsAux] at hx
  | cons p ps ih =>
      intro hn x hx
      simp only [file_refsAux, List.mem_cons] at hx
      rcases hx with hx | hx
      · subst hx
        exact scanS_fileRefLine (hu _) (hn p (by simp))
      · exact ih (k + 1) (fun q hq => hn q (List.mem_cons_of_mem p hq)) x hx

theorem scanS_mem_sources_listAux {s : Nat → String}
    (hu : ∀ k, scanS (uuidAt s k) = scanUnit) :
    ∀ (k : Nat) (files : List String), (∀ p ∈ files, scanS (basename p) = scanUnit) →
      ∀ x ∈ sources_listAux s k files, scanS x = scanUnit := by
  intro k files
  induction files generalizing k with
  | nil => intro _ x hx; simp [sources_listAux] at hx
  | cons p ps ih =>
      intro hn x hx
      simp only [sources_listAux, List.mem_cons] at hx
      rcases hx with hx | hx
      · subst hx
        exact scanS_sourcesLine (hu _) (hn p (by simp))
      · exact ih (k + 1) (fun q hq => hn q (List.mem_cons_of_mem p hq)) x hx

/-- If every generated identifier token is 24 uppercase hex characters and
every discovered basename stays within the bare-token alphabet, the whole
serialized descriptor text is syntactically balanced. -/
theorem wellFormed_projectContent (files : List String) (s : Nat → String)
    (hhex : ∀ k, isHexId (uuidAt s k) = true)
    (hn : ∀ p ∈ files, (basename p).data.all isBareChar = true) :
    wellFormedText (projectContent files s) := by
  have hu : ∀ k, scanS (uuidAt s k) = scanUnit := fun k => scanS_of_hexId (hhex k)
  have hn' : ∀ p ∈ files, scanS (basename p) = scanUnit :=
    fun p hp => scanS_of_bare (hn p hp)
  have hjb : scanS (joinNl (build_files files s)) = scanUnit :=
    scanS_joinNl _ (scanS_mem_build_filesAux hu 0 files hn')
  have hjr : scanS (joinNl (file_refs files s)) = scanUnit :=
    scanS_joinNl _ (scanS_mem_file_refsAux hu 0 files hn')
  have hjs : scanS (joinNl (sources_list files s)) = scanUnit :=
    scanS_joinNl _ (scanS_mem_sources_listAux hu 0 files hn')
  exact scanS_projectContent files s hu hjb hjr hjs

theorem hexChar_ne_dash : ∀ k, k < 16 → hexChar k ≠ '-' := by decide

theorem hexChar_upper_hex : ∀ k, k < 16 → isUpHex (Char.toUpper (hexChar k)) = true := by decide

theorem uuidAt_demoSupply (n : Nat) :
    uuidAt demoSupply n =
      String.mk (Char.toUpper (hexChar (n / 16 % 16)) ::
        Char.toUpper (hexChar (n % 16)) :: List.replicate 22 'F') := by
  have hm1 : n / 16 % 16 < 16 := Nat.mod_lt _ (by norm_num)
  have hm2 : n % 16 < 16 := Nat.mod_lt _ (by norm_num)
  have hfil : List.filter (fun c => c != '-')
      (hexChar (n / 16 % 16) :: hexChar (n % 16) :: List.replicate 30 'f') =
      hexChar (n / 16 % 16) :: hexChar (n % 16) :: List.replicate 30 'f' := by
    refine List.filter_eq_self.mpr ?_
    intro a ha
    simp only [List.mem_cons] at ha
    rw [bne_iff_ne]
    rcases ha with ha | ha | ha
    · subst ha; exact hexChar_ne_dash _ hm1
    · subst ha; exact hexChar_ne_dash _ hm2
    · have hf : a = 'f' := List.eq_of_mem_replicate ha
      subst hf; decide
  simp only [uuidAt, generate_uuid, demoSupply, hfil, List.map_cons, List.map_replicate,
    List.take_succ_cons, List.take_replicate]
  have hfF : Char.toUpper 'f' = 'F' := by decide
  rw [hfF]
  norm_num

theorem demoSupply_hexId (n : Nat) : isHexId (uuidAt demoSupply n) = true := by
  have hm1 : n / 16 % 16 < 16 := Nat.mod_lt _ (by norm_num)
  have hm2 : n % 16 < 16 := Nat.mod_lt _ (by norm_num)
  rw [uuidAt_demoSupply]
  simp only [isHexId, List.length_cons, List.length_replicate, Bool.and_eq_true, beq_iff_eq,
    List.all_eq_true]
  refine ⟨by norm_num, ?_⟩
  intro c hc
  simp only [List.mem_cons] at hc
  rcases hc with hc | hc | hc
  · subst hc; exact hexChar_upper_hex _ hm1
  · subst hc; exact hexChar_upper_hex _ hm2
  · have : c = 'F' := List.eq_of_mem_replicate hc
    subst this; decide

@[simp] theorem prependTok_cons (a h : List Char) (r : List (List Char)) :
    prependTok a (h :: r) = (a ++ h) :: r := rfl

@[simp] theorem prependTok_prepend (a b : List Char) (L : List (List Char)) :
    prependTok a (prependTok b L) = prependTok (a ++ b) L := by
  cases L <;> simp [prependTok]

theorem splitWs_ne_nil : ∀ l : List Char, splitWs l ≠ []
  | [] => by simp [splitWs]
  | c :: t => by
      by_cases h : isWs c = true
      · simp [splitWs, h]
      · simp only [splitWs, h]
        rw [if_neg (by simp [h])]
        rcases hsp : splitWs t with _ | ⟨x, r⟩
        · exact absurd hsp (splitWs_ne_nil t)
        · simp [prependTok]

@[simp] theorem splitWs_cons (c : Char) (t : List Char) :
    splitWs (c :: t) = if isWs c then [] :: splitWs t else prependTok [c] (splitWs t) := rfl

theorem splitWs_append_wsfree (a : List Char) (h : ∀ c ∈ a, isWs c = false) :
    ∀ t : List Char, splitWs (a ++ t) = prependTok a (splitWs t) := by
  intro t
  induction a with
  | nil =>
      simp only [List.nil_append]
      rcases hsp : splitWs t with _ | ⟨x, r⟩
      · exact absurd hsp (splitWs_ne_nil t)
      · simp [prependTok]
  | cons c as ih =>
      have hc := h c (by simp)
      have ih' := ih (fun x hx => h x (List.mem_cons_of_mem c hx))
      simp [splitWs_cons, hc, ih']

theorem upHex_not_ws {c : Char} (h : isUpHex c = true) : isWs c = false := by
  have hm : c ∈ upHexChars := by
    simpa [isUpHex, List.contains_iff_exists_mem_beq, beq_iff_eq] using h
  fin_cases hm <;> decide

theorem hexId_not_ws {u : String} (h : isHexId u = true) :
    ∀ c ∈ u.data, isWs c = false := by
  simp only [isHexId, Bool.and_eq_true, List.all_eq_true] at h
  exact fun c hc => upHex_not_ws (h.2 c hc)

theorem hexId_isHexTok {u : String} (h : isHexId u = true) : isHexTok u.data = true := h

-- isWs on each character that occurs in a generated record line.
@[simp] theorem isWsC0 : isWs '\t' = true := rfl
@[simp] theorem isWsC1 : isWs ' ' = true := rfl
@[simp] theorem isWsC2 : isWs '\"' = false := rfl
@[simp] theorem isWsC3 : isWs '*' = false := rfl
@[simp] theorem isWsC4 : isWs ',' = false := rfl
@[simp] theorem isWsC5 : isWs '.' = false := rfl
@[simp] theorem isWsC6 : isWs '/' = false := rfl
@[simp] theorem isWsC7 : isWs ';' = false := rfl
@[simp] theorem isWsC8 : isWs '<' = false := rfl
@[simp] theorem isWsC9 : isWs '=' = false := rfl
@[simp] theorem isWsC10 : isWs '>' = false := rfl
@[simp] theorem isWsC11 : isWs 'B' = false := rfl
@[simp] theorem isWsC12 : isWs 'F' = false := rfl
@[simp] theorem isWsC13 : isWs 'K' = false := rfl
@[simp] theorem isWsC14 : isWs 'P' = false := rfl
@[simp] theorem isWsC15 : isWs 'R' = false := rfl
@[simp] theorem isWsC16 : isWs 'S' = false := rfl
@[simp] theorem isWsC17 : isWs 'T' = false := rfl
@[simp] theorem isWsC18 : isWs 'X' = false := rfl
@[simp] theorem isWsC19 : isWs 'a' = false := rfl
@[simp] theorem isWsC20 : isWs 'c' = false := rfl
@[simp] theorem isWsC21 : isWs 'd' = false := rfl
@[simp] theorem isWsC22 : isWs 'e' = false := rfl
@[simp] theorem isWsC23 : isWs 'f' = false := rfl
@[simp] theorem isWsC24 : isWs 'g' = false := rfl
@[simp] theorem isWsC25 : isWs 'h' = false := rfl
@[simp] theorem isWsC26 : isWs 'i' = false := rfl
@[simp] theorem isWsC27 : isWs 'l' = false := rfl
@[simp] theorem isWsC28 : isWs 'n' = false := rfl
@[simp] theorem isWsC29 : isWs 'o' = false := rfl
@[simp] theorem isWsC30 : isWs 'p' = false := rfl
@[simp] theorem isWsC31 : isWs 'r' = false := rfl
@[simp] theorem isWsC32 : isWs 's' = false := rfl
@[simp] theorem isWsC33 : isWs 't' = false := rfl
@[simp] theorem isWsC34 : isWs 'u' = false := rfl
@[simp] theorem isWsC35 : isWs 'w' = false := rfl
@[simp] theorem isWsC36 : isWs 'y' = false := rfl
@[simp] theorem isWsC37 : isWs '\x7b' = false := rfl
@[simp] theorem isWsC38 : isWs '\x7d' = false := rfl

-- isHexTok on each literal token of a generated record line.
@[simp] theorem hexTokF0 : isHexTok ['\"', '<', 'g', 'r', 'o', 'u', 'p', '>', '\"', ';'] = false := rfl
@[simp] theorem hexTokF1 : isHexTok ['*', '/'] = false := rfl
@[simp] theorem hexTokF2 : isHexTok ['*', '/', ','] = false := rfl
@[simp] theorem hexTokF3 : isHexTok ['*', '/', ';'] = false := rfl
@[simp] theorem hexTokF4 : isHexTok ['/', '*'] = false := rfl
@[simp] theorem hexTokF5 : isHexTok [';'] = false := rfl
@[simp] theorem hexTokF6 : isHexTok ['='] = false := rfl
@[simp] theorem hexTokF7 : isHexTok ['P', 'B', 'X', 'B', 'u', 'i', 'l', 'd', 'F', 'i', 'l', 'e', ';'] = false := rfl
@[simp] theorem hexTokF8 : isHexTok ['P', 'B', 'X', 'F', 'i', 'l', 'e', 'R', 'e', 'f', 'e', 'r', 'e', 'n', 'c', 'e', ';'] = false := rfl
@[simp] theorem hexTokF9 : isHexTok ['S', 'o', 'u', 'r', 'c', 'e', 's'] = false := rfl
@[simp] theorem hexTokF10 : isHexTok ['f', 'i', 'l', 'e', 'R', 'e', 'f'] = false := rfl
@[simp] theorem hexTokF11 : isHexTok ['i', 'n'] = false := rfl
@[simp] theorem hexTokF12 : isHexTok ['l', 'a', 's', 't', 'K', 'n', 'o', 'w', 'n', 'F', 'i', 'l', 'e', 'T', 'y', 'p', 'e'] = false := rfl
@[simp] theorem hexTokF13 : isHexTok ['p', 'a', 't', 'h'] = false := rfl
@[simp] theorem hexTokF14 : isHexTok ['s', 'o', 'u', 'r', 'c', 'e', 'T', 'r', 'e', 'e'] = false := rfl
@[simp] theorem hexTokF15 : isHexTok ['s', 'o', 'u', 'r', 'c', 'e', 'c', 'o', 'd', 'e', '.', 's', 'w', 'i', 'f', 't', ';'] = false := rfl
@[simp] theorem hexTokF16 : isHexTok ['\x7b', 'i', 's', 'a'] = false := rfl
@[simp] theorem hexTokF17 : isHexTok ['\x7d', ';'] = false := rfl
@[simp] theorem hexTokNil : isHexTok ([] : List Char) = false := rfl

@[simp] theorem hexTok_semi (l : List Char) : isHexTok (l ++ [';']) = false := by
  simp [isHexTok, List.all_append]
  intro h1 h2
  decide

@[simp] theorem mk_data (s : String) : String.mk s.data = s := rfl

-- prototype: tokens of a sources-phase line
theorem hexIds_sourcesLine {bu n : String} (hb : isHexId bu = true)
    (hn1 : ∀ c ∈ n.data, isWs c = false) (hn2 : isHexTok n.data = false) :
    hexIds (sourcesLine bu n) = [bu] := by
  have hbw := hexId_not_ws hb
  have h1 := splitWs_append_wsfree bu.data hbw
  have h2 := splitWs_append_wsfree n.data hn1
  simp [hexIds, sourcesLine, data_append, List.append_assoc, splitWs_cons, h1, h2,
    hexId_isHexTok hb, hn2, List.filter]

theorem hexIds_fileRefLine {u n : String} (hu : isHexId u = true)
    (hn1 : ∀ c ∈ n.data, isWs c = false) (hn2 : isHexTok n.data = false) :
    hexIds (fileRefLine u n) = [u] := by
  have huw := hexId_not_ws hu
  have h1 := splitWs_append_wsfree u.data huw
  have h2 := splitWs_append_wsfree n.data hn1
  simp [hexIds, fileRefLine, data_append, List.append_assoc, splitWs_cons, h1, h2,
    hexId_isHexTok hu, hn2, List.filter]

theorem hexIds_buildFileLine {bu n ref : String} (hb : isHexId bu = true)
    (hr : isHexId ref = true)
    (hn1 : ∀ c ∈ n.data, isWs c = false) (hn2 : isHexTok n.data = false) :
    hexIds (buildFileLine bu n ref) = [bu, ref] := by
  have hbw := hexId_not_ws hb
  have hrw := hexId_not_ws hr
  have h1 := splitWs_append_wsfree bu.data hbw
  have h2 := splitWs_append_wsfree n.data hn1
  have h3 := splitWs_append_wsfree ref.data hrw
  simp [hexIds, buildFileLine, data_append, List.append_assoc, splitWs_cons, h1, h2, h3,
    hexId_isHexTok hb, hexId_isHexTok hr, hn2, List.filter]

theorem hexIds_sources_listAux {s : Nat → String}
    (hhex : ∀ k, isHexId (uuidAt s k) = true) :
    ∀ (files : List String) (k : Nat), (∀ p ∈ files, goodName p) →
      (sources_listAux s k files).map hexIds =
        (List.range files.length).map (fun i => [uuidAt s (2 * (k + i) + 1)]) := by
  intro files
  induction files with
  | nil => intro k _; simp [sources_listAux]
  | cons p ps ih =>
      intro k hn
      have hp := hn p (by simp)
      have hline := hexIds_sourcesLine (hhex (2 * k + 1)) hp.1 hp.2
      have htail := ih (k + 1) (fun q hq => hn q (List.mem_cons_of_mem p hq))
      simp only [sources_listAux, List.map_cons, hline, htail, List.length_cons,
        List.range_succ_eq_map, List.map_map]
      refine List.cons_eq_cons.mpr ⟨by simp, ?_⟩
      apply List.map_congr_left
      intro i _
      simp only [Function.comp_apply]
      congr 2
      omega

theorem hexIds_file_refsAux {s : Nat → String}
    (hhex : ∀ k, isHexId (uuidAt s k) = true) :
    ∀ (files : List String) (k : Nat), (∀ p ∈ files, goodName p) →
      (file_refsAux s k files).map hexIds =
        (List.range files.length).map (fun i => [uuidAt s (2 * (k + i))]) := by
  intro files
  induction files with
  | nil => intro k _; simp [file_refsAux]
  | cons p ps ih =>
      intro k hn
      have hp := hn p (by simp)
      have hline := hexIds_fileRefLine (hhex (2 * k)) hp.1 hp.2
      have htail := ih (k + 1) (fun q hq => hn q (List.mem_cons_of_mem p hq))
      simp only [file_refsAux, List.map_cons, hline, htail, List.length_cons,
        List.range_succ_eq_map, List.map_map]
      refine List.cons_eq_cons.mpr ⟨by simp, ?_⟩
      apply List.map_congr_left
      intro i _
      simp only [Function.comp_apply]
      congr 2
      omega

theorem hexIds_build_filesAux {s : Nat → String}
    (hhex : ∀ k, isHexId (uuidAt s k) = true) :
    ∀ (files : List String) (k : Nat), (∀ p ∈ files, goodName p) →
      (build_filesAux s k files).map hexIds =
        (List.range files.length).map
          (fun i => [uuidAt s (2 * (k + i) + 1), uuidAt s (2 * (k + i))]) := by
  intro files
  induction files with
  | nil => intro k _; simp [build_filesAux]
  | cons p ps ih =>
      intro k hn
      have hp := hn p (by simp)
      have hline := hexIds_buildFileLine (hhex (2 * k + 1)) (hhex (2 * k)) hp.1 hp.2
      have htail := ih (k + 1) (fun q hq => hn q (List.mem_cons_of_mem p hq))
      simp only [build_filesAux, List.map_cons, hline, htail, List.length_cons,
        List.range_succ_eq_map, List.map_map]
      refine List.cons_eq_cons.mpr ⟨by simp, ?_⟩
      apply List.map_congr_left
      intro i _
      simp only [Function.comp_apply]
      have e : k + 1 + i = k + (i + 1) := by omega
      rw [e]

theorem file_refsAux_length (s : Nat → String) :
    ∀ (files : List String) (k : Nat), (file_refsAux s k files).length = files.length := by
  intro files
  induction files with
  | nil => intro k; rfl
  | cons p ps ih => intro k; simp [file_refsAux, ih]

theorem build_filesAux_length (s : Nat → String) :
    ∀ (files : List String) (k : Nat), (build_filesAux s k files).length = files.length := by
  intro files
  induction files with
  | nil => intro k; rfl
  | cons p ps ih => intro k; simp [build_filesAux, ih]

theorem sources_listAux_length (s : Nat → String) :
    ∀ (files : List String) (k : Nat), (sources_listAux s k files).length = files.length := by
  intro files
  induction files with
  | nil => intro k; rfl
  | cons p ps ih => intro k; simp [sources_listAux, ih]

theorem mem_definedIdx_lt {N x : Nat} (h : x ∈ definedIdx N) : x < 2 * N + 23 := by
  simp only [definedIdx, List.mem_append, List.mem_map, List.mem_range, List.mem_cons,
    List.not_mem_nil, or_false] at h
  rcases h with ((⟨i, hi, he⟩ | h) | ⟨i, hi, he⟩) | h
  · omega
  · omega
  · omega
  · omega

theorem notMem_definedIdx_rootIdx (N : Nat) : 2 * N + 25 ∉ definedIdx N := by
  intro h
  have := mem_definedIdx_lt h
  omega

theorem rootIdx_mem_referencedIdx (N : Nat) : 2 * N + 25 ∈ referencedIdx N := by
  simp [referencedIdx]

theorem nodup_definedIdx (N : Nat) : (definedIdx N).Nodup := by
  have hodd : ((List.range N).map (fun i => 2 * i + 1)).Nodup :=
    (List.nodup_range N).map (fun a b hab => by omega)
  have heven : ((List.range N).map (fun i => 2 * i)).Nodup :=
    (List.nodup_range N).map (fun a b hab => by omega)
  simp only [definedIdx, List.nodup_append, List.nodup_cons, List.nodup_nil,
    List.disjoint_left, List.mem_append, List.mem_map, List.mem_range, List.mem_cons,
    List.mem_singleton, List.not_mem_nil, or_false, hodd, heven, true_and, and_true,
    forall_exists_index, and_imp, or_imp, not_false_eq_true, not_exists, not_or,
    forall_and]
  repeat' apply And.intro
  all_goals intros
  all_goals try subst_vars
  all_goals omega

-- Identifier-level consequences

theorem definedIds_nodup (files : List String) (s : Nat → String)
    (hinj : ∀ m, m < 2 * files.length + 26 → ∀ n, n < 2 * files.length + 26 →
      uuidAt s m = uuidAt s n → m = n) :
    (definedIds files s).Nodup := by
  refine List.Nodup.map_on ?_ (nodup_definedIdx files.length)
  intro x hx y hy he
  have hx' := mem_definedIdx_lt hx
  have hy' := mem_definedIdx_lt hy
  exact hinj x (by omega) y (by omega) he

theorem rootRef_mem_referencedIds (files : List String) (s : Nat → String) :
    uuidAt s (2 * files.length + 25) ∈ referencedIds files s :=
  List.mem_map_of_mem _ (rootIdx_mem_referencedIdx files.length)

theorem rootRef_notMem_definedIds (files : List String) (s : Nat → String)
    (hinj : ∀ m, m < 2 * files.length + 26 → ∀ n, n < 2 * files.length + 26 →
      uuidAt s m = uuidAt s n → m = n) :
    uuidAt s (2 * files.length + 25) ∉ definedIds files s := by
  intro hmem
  obtain ⟨j, hj, he⟩ := List.mem_map.mp hmem
  have hjlt := mem_definedIdx_lt hj
  have := hinj j (by omega) (2 * files.length + 25) (by omega) he
  subst this
  exact notMem_definedIdx_rootIdx files.length hj

theorem getObject_setPath_same {α : Type} (g : List (String × PbxEntry α))
    (i newPath : String) :
    getObject (setPath g i newPath) i =
      (getObject g i).map (fun o => ⟨newPath, o.rest⟩) := by
  induction g with
  | nil => rfl
  | cons e t ih =>
      by_cases he : e.fst = i
      · simp [getObject, setPath, List.find?, he]
      · have he' : (e.fst == i) = false := beq_eq_false_iff_ne.mpr he
        simpa [getObject, setPath, List.find?, he'] using ih

theorem getObject_setPath_other {α : Type} (g : List (String × PbxEntry α))
    (i newPath j : String) (hj : j ≠ i) :
    getObject (setPath g i newPath) j = getObject g j := by
  induction g with
  | nil => rfl
  | cons e t ih =>
      by_cases he : e.fst = i
      · have hij : (i == j) = false := beq_eq_false_iff_ne.mpr (Ne.symm hj)
        simpa [getObject, setPath, List.find?, he, hij] using ih
      · have he' : (e.fst == i) = false := beq_eq_false_iff_ne.mpr he
        by_cases hej : e.fst = j
        · have hji' : (j == i) = false := beq_eq_false_iff_ne.mpr hj
          simp [getObject, setPath, List.find?, he', hej, hji']
        · have hej' : (e.fst == j) = false := beq_eq_false_iff_ne.mpr hej
          simpa [getObject, setPath, List.find?, he', hej'] using ih

-- v4Fix behaviour (support for claim C10)

theorem v4Fix_other {α : Type} (g : List (String × PbxEntry α)) (i oldPath newPath j : String)
    (hj : j ≠ i) : getObject (v4Fix g i oldPath newPath) j = getObject g j := by
  unfold v4Fix
  rcases hg : getObject g i with _ | o
  · rfl
  · rcases hp : (o.path == oldPath) with _ | _
    · simp only [hp, Bool.false_eq_true, if_false]
    · simp only [hp, if_true]
      exact getObject_setPath_other g i newPath j hj

theorem v4Fix_none {α : Type} (g : List (String × PbxEntry α)) (i oldPath newPath : String)
    (hg : getObject g i = none) : v4Fix g i oldPath newPath = g := by
  unfold v4Fix
  rw [hg]

theorem v4Fix_skip {α : Type} (g : List (String × PbxEntry α)) (i oldPath newPath : String)
    (o : PbxEntry α) (hg : getObject g i = some o) (hp : o.path ≠ oldPath) :
    v4Fix g i oldPath newPath = g := by
  unfold v4Fix
  rw [hg]
  simp only [beq_eq_false_iff_ne.mpr hp, Bool.false_eq_true, if_false]

theorem v4Fix_hit {α : Type} (g : List (String × PbxEntry α)) (i oldPath newPath : String)
    (o : PbxEntry α) (hg : getObject g i = some o) (hp : o.path = oldPath) :
    getObject (v4Fix g i oldPath newPath) i = some ⟨newPath, o.rest⟩ := by
  unfold v4Fix
  rw [hg]
  simp only [hp, beq_self_eq_true, if_true]
  rw [getObject_setPath_same, hg]
  rfl

theorem v4Id_ne : v4Id2 ≠ v4Id1 := by decide

theorem v4Id_ne' : v4Id1 ≠ v4Id2 := by decide

-- ==================== The ten claims ====================

/-- Claim C1 (code_bug evidence): on the concrete empty-input run with the
canonical draw stream, the `rootObject` identifier (draw 25) and the
`mainGroup` identifier (draw 13) are emitted as references but name no
record of the `objects` mapping — the generated descriptor has dangling
references, contradicting the reference-closure invariant of the spec.  The text
of the run really ends with the dangling `rootObject = …` reference. -/
theorem C1_rootObject_dangling :
    uuidAt demoSupply 25 ∈ referencedIds [] demoSupply ∧
    uuidAt demoSupply 25 ∉ definedIds [] demoSupply ∧
    uuidAt demoSupply 13 ∈ referencedIds [] demoSupply ∧
    uuidAt demoSupply 13 ∉ definedIds [] demoSupply ∧
    (∃ pre, projectContent [] demoSupply = pre ++ rootRefText demoSupply 0) := by
  refine ⟨by decide, by decide, by decide, by decide, ?_⟩
  refine ⟨(pbxPart0 [] demoSupply ++ pbxPart1 [] demoSupply ++ pbxPart2 [] demoSupply ++
    pbxPart3 [] demoSupply ++ pbxPart4 [] demoSupply ++ pbxPart5 [] demoSupply) ++
    (tp71 ++ tp72 ++ tp75 ++ tp76 ++ uuidB demoSupply 0 19 ++ tp77 ++ tp78 ++
      uuidB demoSupply 0 20 ++ tp79 ++ uuidB demoSupply 0 21 ++ tp80 ++
      uuidB demoSupply 0 22 ++ tp81 ++ tp82 ++ uuidB demoSupply 0 23 ++ tp79 ++
      uuidB demoSupply 0 24 ++ tp83 ++ tp84), ?_⟩
  simp only [projectContent, pbxPart6, List.length_nil, strAppend_assoc]

/-- Claim C2 (counterexample): the in-memory graph of the empty-input run
contains a dangling reference (`rootObject`), yet serialization succeeds and
produces the full descriptor text — no `SerializationError` is raised before
(or instead of) writing. -/
theorem C2_counterexample :
    writeDescriptor [] demoSupply = Except.ok (projectContent [] demoSupply) ∧
    uuidAt demoSupply 25 ∈ referencedIds [] demoSupply ∧
    uuidAt demoSupply 25 ∉ definedIds [] demoSupply :=
  ⟨rfl, by decide, by decide⟩

/-- Claim C2 (amended): serialization performs no referential-integrity
check at all — for every input list and every draw stream whose tokens are
pairwise distinct on the draws of the run, the write succeeds unconditionally
with the full content, even though the emitted graph always contains the
dangling `rootObject` reference. -/
theorem C2_write_unconditional (files : List String) (s : Nat → String)
    (hinj : ∀ m, m < 2 * files.length + 26 → ∀ n, n < 2 * files.length + 26 →
      uuidAt s m = uuidAt s n → m = n) :
    writeDescriptor files s = Except.ok (projectContent files s) ∧
    uuidAt s (2 * files.length + 25) ∈ referencedIds files s ∧
    uuidAt s (2 * files.length + 25) ∉ definedIds files s :=
  ⟨rfl, rootRef_mem_referencedIds files s, rootRef_notMem_definedIds files s hinj⟩

/-- Witness for C2_write_unconditional at the concrete empty-input run. -/
theorem C2_write_unconditional_witness :
    writeDescriptor [] demoSupply = Except.ok (projectContent [] demoSupply) ∧
    uuidAt demoSupply (2 * List.length ([] : List String) + 25) ∈
      referencedIds [] demoSupply ∧
    uuidAt demoSupply (2 * List.length ([] : List String) + 25) ∉
      definedIds [] demoSupply :=
  C2_write_unconditional [] demoSupply (by decide)

/-- Claim C3 (counterexample): under a colliding draw stream two calls to
`generate_uuid` in one run return the same token, and nothing detects or
rejects it: the write still succeeds and the emitted `objects` mapping
contains duplicate identifiers. -/
theorem C3_counterexample :
    uuidAt collSupply 0 = uuidAt collSupply 1 ∧ (0 : Nat) ≠ 1 ∧
    writeDescriptor ["A.swift"] collSupply =
      Except.ok (projectContent ["A.swift"] collSupply) ∧
    ¬ (definedIds ["A.swift"] collSupply).Nodup :=
  ⟨by decide, by decide, rfl, by decide⟩

/-- Claim C3 (amended): the generated identifiers of one run are pairwise
distinct exactly when the underlying truncated draws are: if the draw
stream is injective on the `2*N+26` draws of the run, every identifier in the
emitted `objects` mapping is unique. -/
theorem C3_identifier_uniqueness (files : List String) (s : Nat → String)
    (hinj : ∀ m, m < 2 * files.length + 26 → ∀ n, n < 2 * files.length + 26 →
      uuidAt s m = uuidAt s n → m = n) :
    (definedIds files s).Nodup :=
  definedIds_nodup files s hinj

/-- Witness for C3_identifier_uniqueness at a concrete one-file run. -/
theorem C3_identifier_uniqueness_witness :
    (definedIds ["Main.swift"] demoSupply).Nodup :=
  C3_identifier_uniqueness ["Main.swift"] demoSupply (by decide)

set_option maxRecDepth 40000 in
/-- Claim C4 (counterexample): for the discovered file `My File.swift` the
emitted file-reference record carries the field value `My File.swift` —
containing a space, outside the bare-token alphabet — without any quotes,
so the claimed escaping does not happen. -/
theorem C4_counterexample :
    pathValue (fileRefLine (uuidAt demoSupply 0) "My File.swift") =
      some "My File.swift" ∧
    fieldEscapedOk "My File.swift" = false ∧
    fileRefLine (uuidAt demoSupply 0) "My File.swift" ∈
      file_refs ["My File.swift"] demoSupply :=
  ⟨by decide, by decide, by decide⟩

/-- Claim C4 (amended): no escaping is applied — interpolated values are
emitted verbatim — but whenever every discovered basename stays within the
bare-token alphabet (and the identifier tokens are 24-character uppercase
hex, as produced by `generate_uuid`), the serialized descriptor is
syntactically balanced: braces and parentheses close exactly and never dip
below top level, and double quotes pair up. -/
theorem C4_wellFormed_of_bare (files : List String) (s : Nat → String)
    (hhex : ∀ k, isHexId (uuidAt s k) = true)
    (hn : ∀ p ∈ files, (basename p).data.all isBareChar = true) :
    wellFormedText (projectContent files s) :=
  wellFormed_projectContent files s hhex hn

/-- Witness for C4_wellFormed_of_bare on the concrete spec scenario. -/
theorem C4_wellFormed_of_bare_witness :
    wellFormedText (projectContent ["Main.swift", "Views/Home.swift"] demoSupply) :=
  C4_wellFormed_of_bare ["Main.swift", "Views/Home.swift"] demoSupply
    demoSupply_hexId (by decide)

/-- Claim C5: the identifiers carried by the sources-phase entry list are
exactly the per-file build-file identifiers (draws `2*i+1`), in discovery
order. -/
theorem C5_sources_phase_order (files : List String) (s : Nat → String)
    (hhex : ∀ k, isHexId (uuidAt s k) = true)
    (hn : ∀ p ∈ files, goodName p) :
    (sources_list files s).map hexIds =
      (List.range files.length).map (fun i => [uuidAt s (2 * i + 1)]) := by
  have h := hexIds_sources_listAux hhex files 0 hn
  simpa using h

/-- Witness for C5_sources_phase_order on the concrete spec scenario. -/
theorem C5_sources_phase_order_witness :
    (sources_list ["Main.swift", "Views/Home.swift"] demoSupply).map hexIds =
      (List.range (List.length ["Main.swift", "Views/Home.swift"])).map
        (fun i => [uuidAt demoSupply (2 * i + 1)]) :=
  C5_sources_phase_order ["Main.swift", "Views/Home.swift"] demoSupply
    demoSupply_hexId (by decide)

/-- Claim C6: a run over `N` discovered paths emits exactly `N` file
references and `N` build files, and the `i`-th build-file `fileRef`
identifier (draw `2*i`) is precisely the identifier of the `i`-th file
reference. -/
theorem C6_pairing (files : List String) (s : Nat → String)
    (hhex : ∀ k, isHexId (uuidAt s k) = true)
    (hn : ∀ p ∈ files, goodName p) :
    (file_refs files s).length = files.length ∧
    (build_files files s).length = files.length ∧
    (file_refs files s).map hexIds =
      (List.range files.length).map (fun i => [uuidAt s (2 * i)]) ∧
    (build_files files s).map hexIds =
      (List.range files.length).map
        (fun i => [uuidAt s (2 * i + 1), uuidAt s (2 * i)]) := by
  refine ⟨file_refsAux_length s files 0, build_filesAux_length s files 0, ?_, ?_⟩
  · have h := hexIds_file_refsAux hhex files 0 hn
    simpa using h
  · have h := hexIds_build_filesAux hhex files 0 hn
    simpa using h

/-- Witness for C6_pairing on the concrete spec scenario. -/
theorem C6_pairing_witness :
    (file_refs ["Main.swift", "Views/Home.swift"] demoSupply).length = 2 ∧
    (build_files ["Main.swift", "Views/Home.swift"] demoSupply).length = 2 ∧
    (file_refs ["Main.swift", "Views/Home.swift"] demoSupply).map hexIds =
      (List.range 2).map (fun i => [uuidAt demoSupply (2 * i)]) ∧
    (build_files ["Main.swift", "Views/Home.swift"] demoSupply).map hexIds =
      (List.range 2).map
        (fun i => [uuidAt demoSupply (2 * i + 1), uuidAt demoSupply (2 * i)]) :=
  C6_pairing ["Main.swift", "Views/Home.swift"] demoSupply demoSupply_hexId (by decide)

/-- Claim C7 (counterexample): the directory part of a discovered path is
dropped — two different input lists whose basenames agree produce the very
same descriptor text, so information about the input paths is lost. -/
theorem C7_counterexample :
    projectContent ["Views/Foo.swift", "Models/Foo.swift"] demoSupply =
      projectContent ["Helpers/Foo.swift", "Util/Foo.swift"] demoSupply ∧
    ("Views/Foo.swift" : String) ≠ "Helpers/Foo.swift" := by
  constructor
  · have h1 : basename "Views/Foo.swift" = "Foo.swift" := by decide
    have h2 : basename "Models/Foo.swift" = "Foo.swift" := by decide
    have h3 : basename "Helpers/Foo.swift" = "Foo.swift" := by decide
    have h4 : basename "Util/Foo.swift" = "Foo.swift" := by decide
    simp only [projectContent, pbxPart0, pbxPart1, pbxPart2, pbxPart3, pbxPart4,
      pbxPart5, pbxPart6, file_refs, build_files, sources_list, file_refsAux,
      build_filesAux, sources_listAux, h1, h2, h3, h4, List.length_cons,
      List.length_nil]
  · decide

/-- Claim C7 (amended): two discovered paths with the same basename still
receive two distinct file-reference entries with two distinct identifiers
(draws 0 and 2), provided those draws differ. -/
theorem C7_distinct_entries (p q : String) (s : Nat → String)
    (hhex : ∀ k, isHexId (uuidAt s k) = true)
    (hgp : goodName p) (hgq : goodName q)
    (hbase : basename p = basename q)
    (hne : uuidAt s 0 ≠ uuidAt s 2) :
    (file_refs [p, q] s).map hexIds = [[uuidAt s 0], [uuidAt s 2]] ∧
    (file_refs [p, q] s).length = 2 ∧
    ∀ l1 l2, file_refs [p, q] s = [l1, l2] → l1 ≠ l2 := by
  have hn : ∀ x ∈ [p, q], goodName x := by
    intro x hx
    simp only [List.mem_cons, List.not_mem_nil, or_false] at hx
    rcases hx with hx | hx
    · subst hx; exact hgp
    · subst hx; exact hgq
  have hmap := hexIds_file_refsAux hhex [p, q] 0 hn
  have hmap' : (file_refs [p, q] s).map hexIds = [[uuidAt s 0], [uuidAt s 2]] := by
    simpa [List.range_succ] using hmap
  refine ⟨hmap', file_refsAux_length s [p, q] 0, ?_⟩
  intro l1 l2 he hcontra
  rw [he, hcontra] at hmap'
  simp only [List.map_cons, List.map_nil, List.cons.injEq, and_true] at hmap'
  have hequ : [uuidAt s 0] = [uuidAt s 2] := hmap'.1.symm.trans hmap'.2
  simp only [List.cons.injEq, and_true] at hequ
  exact hne hequ

/-- Witness for C7_distinct_entries at a concrete duplicate-basename pair. -/
theorem C7_distinct_entries_witness :
    (file_refs ["Views/Foo.swift", "Models/Foo.swift"] demoSupply).map hexIds =
      [[uuidAt demoSupply 0], [uuidAt demoSupply 2]] ∧
    (file_refs ["Views/Foo.swift", "Models/Foo.swift"] demoSupply).length = 2 ∧
    ∀ l1 l2, file_refs ["Views/Foo.swift", "Models/Foo.swift"] demoSupply = [l1, l2] →
      l1 ≠ l2 :=
  C7_distinct_entries "Views/Foo.swift" "Models/Foo.swift" demoSupply demoSupply_hexId
    (by decide) (by decide) (by decide) (by decide)

set_option maxRecDepth 40000 in
/-- Claim C8 (counterexample): with zero discovered files the sources phase
entry list is empty, but the resources phase is not — its single static
`Assets.xcassets` entry (carrying the draw-5 identifier) is still emitted,
and the descriptor text really contains that entry line.  So not every
build-phase entry list is empty. -/
theorem C8_counterexample :
    sources_list [] demoSupply = [] ∧
    resEntryLine demoSupply 0 ≠ "" ∧
    hexIds (resEntryLine demoSupply 0) = [uuidAt demoSupply 5] ∧
    (∃ pre suf, projectContent [] demoSupply =
      pre ++ (resEntryLine demoSupply 0 ++ suf)) := by
  refine ⟨rfl, by decide, by decide, ?_⟩
  refine ⟨pbxPart0 [] demoSupply ++ pbxPart1 [] demoSupply ++
    (tp23 ++ uuidB demoSupply 0 11 ++ tp24 ++ tp25 ++ uuidB demoSupply 0 0 ++ tp26 ++
      uuidB demoSupply 0 12 ++ tp27 ++ tp28 ++ uuidB demoSupply 0 13 ++ tp29 ++
      uuidB demoSupply 0 14 ++ tp30 ++ uuidB demoSupply 0 0 ++ tp31 ++
      uuidB demoSupply 0 2 ++ tp32),
    (tp33 ++ tp34 ++ uuidB demoSupply 0 1) ++ pbxPart3 [] demoSupply ++
      pbxPart4 [] demoSupply ++ pbxPart5 [] demoSupply ++ pbxPart6 [] demoSupply, ?_⟩
  simp only [projectContent, pbxPart2, List.length_nil, strAppend_assoc]

/-- Claim C8 (amended): the empty-input run still produces a syntactically
balanced descriptor, and its sources-phase entry list (and joined text) is
empty — but the resources phase keeps its static entry. -/
theorem C8_empty_input (s : Nat → String)
    (hhex : ∀ k, isHexId (uuidAt s k) = true) :
    wellFormedText (projectContent [] s) ∧ sources_list [] s = [] ∧
    joinNl (sources_list [] s) = "" :=
  ⟨wellFormed_projectContent [] s hhex (fun p hp => absurd hp (List.not_mem_nil p)),
    rfl, rfl⟩

/-- Witness for C8_empty_input at the canonical draw stream. -/
theorem C8_empty_input_witness :
    wellFormedText (projectContent [] demoSupply) ∧
    sources_list [] demoSupply = [] ∧
    joinNl (sources_list [] demoSupply) = "" :=
  C8_empty_input demoSupply demoSupply_hexId

/-- Claim C9: for both patch scripts, a single-positional-argument
invocation exits 1 and prints `An error occurred: …` when the try-block
raises, and exits 0 when it does not. -/
theorem C9_patch_exit_codes (scr path : String) (body : TryOutcome) :
    ((fixProjectPathsMain [scr, path] body).snd =
      if body.raised.isSome then 1 else 0) ∧
    ((fixProjectPathsV2Main [scr, path] body).snd =
      if body.raised.isSome then 1 else 0) ∧
    (∀ msg, body.raised = some msg →
      ("An error occurred: " ++ msg) ∈ (fixProjectPathsMain [scr, path] body).fst ∧
      ("An error occurred: " ++ msg) ∈ (fixProjectPathsV2Main [scr, path] body).fst) := by
  obtain ⟨pr, r⟩ := body
  cases r with
  | none => simp [fixProjectPathsMain, fixProjectPathsV2Main]
  | some msg => simp [fixProjectPathsMain, fixProjectPathsV2Main]

/-- Witness for C9_patch_exit_codes: a raising run exits 1 with the error
line printed, a clean run exits 0. -/
theorem C9_patch_exit_codes_witness :
    (fixProjectPathsMain ["fix_project_paths.py", "project.pbxproj"]
      ⟨["Project loaded successfully."], some "boom"⟩).snd = 1 ∧
    ("An error occurred: " ++ "boom") ∈ (fixProjectPathsMain
      ["fix_project_paths.py", "project.pbxproj"]
      ⟨["Project loaded successfully."], some "boom"⟩).fst ∧
    (fixProjectPathsV2Main ["fix_project_paths_v2.py", "project.pbxproj"]
      ⟨["Project saved successfully."], none⟩).snd = 0 := by
  refine ⟨?_, ?_, ?_⟩
  · exact (C9_patch_exit_codes "fix_project_paths.py" "project.pbxproj"
      ⟨["Project loaded successfully."], some "boom"⟩).1
  · exact ((C9_patch_exit_codes "fix_project_paths.py" "project.pbxproj"
      ⟨["Project loaded successfully."], some "boom"⟩).2.2 "boom" rfl).1
  · exact (C9_patch_exit_codes "fix_project_paths_v2.py" "project.pbxproj"
      ⟨["Project saved successfully."], none⟩).2.1

/-- Claim C10: fix_project_paths_v4 rewrites a path only when the
hard-coded entry exists and currently carries the expected old path; under
a failed guard the entry is unchanged, and every other entry is always
unchanged. -/
theorem C10_v4_guarded (α : Type) (g : List (String × PbxEntry α)) :
    (∀ j, j ≠ v4Id1 → j ≠ v4Id2 →
      getObject (fixV4Transform g) j = getObject g j) ∧
    (getObject g v4Id1 = none →
      getObject (fixV4Transform g) v4Id1 = getObject g v4Id1) ∧
    (∀ o : PbxEntry α, getObject g v4Id1 = some o → o.path ≠ v4Old1 →
      getObject (fixV4Transform g) v4Id1 = getObject g v4Id1) ∧
    (∀ o : PbxEntry α, getObject g v4Id1 = some o → o.path = v4Old1 →
      getObject (fixV4Transform g) v4Id1 = some ⟨v4New1, o.rest⟩) ∧
    (getObject g v4Id2 = none →
      getObject (fixV4Transform g) v4Id2 = getObject g v4Id2) ∧
    (∀ o : PbxEntry α, getObject g v4Id2 = some o → o.path ≠ v4Old2 →
      getObject (fixV4Transform g) v4Id2 = getObject g v4Id2) ∧
    (∀ o : PbxEntry α, getObject g v4Id2 = some o → o.path = v4Old2 →
      getObject (fixV4Transform g) v4Id2 = some ⟨v4New2, o.rest⟩) := by
  have hframe1 : getObject (v4Fix g v4Id1 v4Old1 v4New1) v4Id2 = getObject g v4Id2 :=
    v4Fix_other g v4Id1 v4Old1 v4New1 v4Id2 v4Id_ne
  refine ⟨?_, ?_, ?_, ?_, ?_, ?_, ?_⟩
  · intro j hj1 hj2
    rw [fixV4Transform, v4Fix_other _ _ _ _ j hj2, v4Fix_other _ _ _ _ j hj1]
  · intro hg
    rw [fixV4Transform, v4Fix_other _ _ _ _ v4Id1 v4Id_ne', v4Fix_none g _ _ _ hg]
  · intro o hg hp
    rw [fixV4Transform, v4Fix_other _ _ _ _ v4Id1 v4Id_ne', v4Fix_skip g _ _ _ o hg hp]
  · intro o hg hp
    rw [fixV4Transform, v4Fix_other _ _ _ _ v4Id1 v4Id_ne']
    exact v4Fix_hit g _ _ _ o hg hp
  · intro hg
    rw [fixV4Transform, v4Fix_none _ _ _ _ (hframe1.trans hg)]
    exact hframe1
  · intro o hg hp
    rw [fixV4Transform, v4Fix_skip _ _ _ _ o (hframe1.trans hg) hp]
    exact hframe1
  · intro o hg hp
    rw [fixV4Transform]
    exact v4Fix_hit _ _ _ _ o (hframe1.trans hg) hp

/-- Witness for C10_v4_guarded on a concrete two-entry graph: the unrelated
entry is untouched and the path of the guarded entry is rewritten, keeping its
other attributes. -/
theorem C10_v4_guarded_witness :
    getObject (fixV4Transform [(v4Id1, ⟨v4Old1, "rest1"⟩),
      ("AAAAAAAAAAAAAAAAAAAAAAAA", ⟨"x", "restA"⟩)]) "AAAAAAAAAAAAAAAAAAAAAAAA" =
      getObject [(v4Id1, (⟨v4Old1, "rest1"⟩ : PbxEntry String)),
        ("AAAAAAAAAAAAAAAAAAAAAAAA", ⟨"x", "restA"⟩)] "AAAAAAAAAAAAAAAAAAAAAAAA" ∧
    getObject (fixV4Transform [(v4Id1, ⟨v4Old1, "rest1"⟩),
      ("AAAAAAAAAAAAAAAAAAAAAAAA", ⟨"x", "restA"⟩)]) v4Id1 =
      some ⟨v4New1, "rest1"⟩ := by
  constructor
  · exact (C10_v4_guarded String [(v4Id1, ⟨v4Old1, "rest1"⟩),
      ("AAAAAAAAAAAAAAAAAAAAAAAA", ⟨"x", "restA"⟩)]).1
      "AAAAAAAAAAAAAAAAAAAAAAAA" (by decide) (by decide)
  · exact (C10_v4_guarded String [(v4Id1, ⟨v4Old1, "rest1"⟩),
      ("AAAAAAAAAAAAAAAAAAAAAAAA", ⟨"x", "restA"⟩)]).2.2.2.1
      ⟨v4Old1, "rest1"⟩ rfl rfl

end NovaMind
